import Mathlib

/-!
Verification of the brickset-rs v3 request/response encoding layer.

This file gives a shallow embedding of the encoding/decoding code in
`src/v3/util.rs`, `src/v3/request.rs`, `src/v3/response.rs` and
`src/v3/mod.rs`, and proves/refutes the frozen claims about it.

Conventions of the embedding:
- serde_json values are modelled by the inductive `Json`; a serde map is a
  `List (String × Json)` in field order.
- Rust machine integers are modelled as `Int`/`Nat` with explicit bounds
  (`i32` bounds appear where the code parses an `i32`).
- Fallible Rust code (serde (de)serializers that may error, and the one
  `Option::unwrap` that may panic) is modelled with `Except String`.
- Rust `str::split`, `str::trim` and integer `Display`/`from_str_radix` are
  embedded directly as executable Lean functions on `List Char`/`String`,
  covering the ASCII data this crate exchanges.
-/

/-! ## JSON values (model of serde_json values used by this crate) -/

inductive Json where
  | null
  | bool (b : Bool)
  | num (n : Int)
  | str (s : String)
  | arr (elems : List Json)
  | obj (fields : List (String × Json))

/-- First-match lookup of an object key, modelling serde's map-field access. -/
def lookupKey (fields : List (String × Json)) (k : String) : Option Json :=
  (fields.find? (fun kv => kv.1 == k)).map (fun kv => kv.2)

/-- Drop every entry with the given key (serde's internally-tagged enum
deserializer passes the remaining entries on to the variant's payload). -/
def removeKey (fields : List (String × Json)) (k : String) : List (String × Json) :=
  fields.filter (fun kv => kv.1 != k)

/-! ## Characters and decimal digits -/

/-- Model of Rust `char::to_digit(10)`. -/
def digitVal? (c : Char) : Option Nat :=
  if '0' ≤ c ∧ c ≤ '9' then some (c.toNat - 48) else none

/-- The decimal digit character for `d < 10`. -/
def digitChar (d : Nat) : Char := Char.ofNat (48 + d)

/-- Structural helper for `natToChars`: the first argument is fuel, always
ample when it exceeds the number being printed. -/
def natToCharsAux : Nat → Nat → List Char
  | 0, _ => []
  | fuel + 1, n =>
      if n < 10 then [digitChar n]
      else natToCharsAux fuel (n / 10) ++ [digitChar (n % 10)]

/-- Decimal digit expansion of a natural number, most significant first
(the digit production inside Rust's integer `Display`). -/
def natToChars (n : Nat) : List Char := natToCharsAux (n + 1) n

/-- Model of Rust's decimal `Display` for a signed integer. -/
def intToChars (i : Int) : List Char :=
  if i < 0 then '-' :: natToChars i.natAbs else natToChars i.toNat

def intToString (i : Int) : String := String.mk (intToChars i)

/-- Model of Rust `str::split(sep)` at the character level:
`"".split(",") = [""]`, `"a,".split(",") = ["a", ""]`, etc. -/
def splitChar (sep : Char) : List Char → List (List Char)
  | [] => [[]]
  | c :: cs =>
      let r := splitChar sep cs
      if c = sep then [] :: r
      else
        match r with
        | [] => [[c]]
        | h :: t => (c :: h) :: t

/-- Model of Rust `str::trim` (ASCII whitespace; the data this crate trims is
ASCII). -/
def trimChars (l : List Char) : List Char :=
  ((l.dropWhile Char.isWhitespace).reverse.dropWhile Char.isWhitespace).reverse

def rustTrim (s : String) : String := String.mk (trimChars s.data)

def rustSplit (sep : Char) (s : String) : List String :=
  (splitChar sep s.data).map String.mk

/-! ## `i32::from_str_radix(s, 10)` -/

/-- The error kinds of Rust `core::num::ParseIntError` reachable from
`from_str_radix` with radix 10. -/
inductive IntErrorKind where
  | empty
  | invalidDigit
  | posOverflow
  | negOverflow
deriving DecidableEq

/-- The `Display` strings of `core::num::ParseIntError`. -/
def IntErrorKind.message : IntErrorKind → String
  | .empty => "cannot parse integer from empty string"
  | .invalidDigit => "invalid digit found in string"
  | .posOverflow => "number too large to fit in target type"
  | .negOverflow => "number too small to fit in target type"

def i32Min : Int := -2147483648
def i32Max : Int := 2147483647

/-- The digit-accumulation loop of `i32::from_str_radix`: left to right, with
the overflow check performed at every step exactly as the checked arithmetic
in the Rust source does. -/
def fromStrRadix10Core (neg : Bool) : List Char → Int → Except IntErrorKind Int
  | [], acc => .ok acc
  | c :: cs, acc =>
      match digitVal? c with
      | none => .error .invalidDigit
      | some d =>
          if neg then
            if acc * 10 - d < i32Min then .error .negOverflow
            else fromStrRadix10Core neg cs (acc * 10 - d)
          else
            if acc * 10 + d > i32Max then .error .posOverflow
            else fromStrRadix10Core neg cs (acc * 10 + d)

/-- Model of `i32::from_str_radix(s, 10)`: empty input, an optional single
leading sign, then checked digit accumulation. -/
def i32FromStrRadix10 (s : String) : Except IntErrorKind Int :=
  match s.data with
  | [] => .error .empty
  | c :: rest =>
      if c = '+' then
        if rest = [] then .error .invalidDigit else fromStrRadix10Core false rest 0
      else if c = '-' then
        if rest = [] then .error .invalidDigit else fromStrRadix10Core true rest 0
      else fromStrRadix10Core false (c :: rest) 0

/-! ## The comma-list codec (`src/v3/util.rs`, `mod int_vec_as_commastr`) -/

namespace int_vec_as_commastr

/-- `", "`-joining at the character level (`years.iter().format(", ")`). -/
def joinCommaSpace : List (List Char) → List Char
  | [] => []
  | [x] => x
  | x :: xs => x ++ ',' :: ' ' :: joinCommaSpace xs

/-- Model of the `serialize` function: the list of integers joined by `", "`. -/
def serialize (years : List Int) : String :=
  String.mk (joinCommaSpace (years.map intToChars))

/-- The token loop of the `deserialize` function: split on `","`, trim each
token, parse as `i32`; the first failure aborts with the parse error's
`Display` string. -/
def parseTokens : List String → Except String (List Int)
  | [] => .ok []
  | t :: ts =>
      match i32FromStrRadix10 (rustTrim t) with
      | .error e => .error e.message
      | .ok i =>
          match parseTokens ts with
          | .error e => .error e
          | .ok is => .ok (i :: is)

/-- Model of the `deserialize` function. The untagged `StringOrInt` helper
accepts a JSON string (split/trim/parse) or a JSON number that fits in `i32`
(a one-element list); anything else fails with serde's untagged-enum error. -/
def deserialize (v : Json) : Except String (List Int) :=
  match v with
  | .str s => parseTokens (rustSplit ',' s)
  | .num n =>
      if i32Min ≤ n ∧ n ≤ i32Max then .ok [n]
      else .error "data did not match any variant of untagged enum StringOrInt"
  | _ => .error "data did not match any variant of untagged enum StringOrInt"

end int_vec_as_commastr

/-- Whether `pat` starts the character list `l`. -/
def charsStartWith : List Char → List Char → Bool
  | [], _ => true
  | _ :: _, [] => false
  | p :: ps, c :: cs => p = c && charsStartWith ps cs

/-- Whether `pat` occurs contiguously inside the character list. -/
def charsContain (pat : List Char) : List Char → Bool
  | [] => pat.isEmpty
  | c :: cs => charsStartWith pat (c :: cs) || charsContain pat cs

/-- Whether one string occurs as a contiguous substring of another (used to
state whether an error message references an offending token). -/
def strContains (hay pat : String) : Bool :=
  charsContain pat.data hay.data

/-! ## Flag (`src/v3/util.rs`, `struct Flag`) -/

namespace util

/-- The unit-like `Flag` marker whose only serialized form is the integer 1. -/
structure Flag where
deriving DecidableEq

/-- `Flag`'s `Serialize` impl: the literal integer `1`. -/
def Flag.serializeJson (_ : Flag) : Json := .num 1

/-- `Flag`'s `Deserialize` impl: an `i32` that must equal `1`. -/
def Flag.deserializeJson (v : Json) : Except String Flag :=
  match v with
  | .num i =>
      if i = 1 then .ok {} else .error s!"flag must be 1, was {i}"
  | _ => .error "invalid type: expected i32"

end util

/-! ## Dates (`chrono::NaiveDate` at the boundary used by this crate)

`chrono` is an external dependency; `formatDate`/`parseDate` embed the
behaviour of `NaiveDate::format("%Y-%m-%d")` and
`NaiveDate::parse_from_str(_, "%Y-%m-%d")` on the common-era, four-digit-year
range the remote service exchanges. -/

structure NaiveDate where
  year : Nat
  month : Nat
  day : Nat
deriving DecidableEq

def isLeapYear (y : Nat) : Bool :=
  y % 4 = 0 && (y % 100 ≠ 0 || y % 400 = 0)

def daysInMonth (y m : Nat) : Nat :=
  if m = 2 then (if isLeapYear y then 29 else 28)
  else if m = 4 ∨ m = 6 ∨ m = 9 ∨ m = 11 then 30
  else 31

/-- The invariant every `chrono::NaiveDate` value satisfies (restricted to
years 0..=9999, where `%Y` is the plain four-digit zero-padded year). -/
def NaiveDate.valid (d : NaiveDate) : Prop :=
  1 ≤ d.month ∧ d.month ≤ 12 ∧ 1 ≤ d.day ∧ d.day ≤ daysInMonth d.year d.month ∧ d.year ≤ 9999

instance (d : NaiveDate) : Decidable d.valid := by
  unfold NaiveDate.valid
  infer_instance

def zeroPad (w : Nat) (l : List Char) : List Char :=
  List.replicate (w - l.length) '0' ++ l

def formatDateChars (d : NaiveDate) : List Char :=
  zeroPad 4 (natToChars d.year) ++ '-' :: (zeroPad 2 (natToChars d.month) ++ '-' :: zeroPad 2 (natToChars d.day))

/-- `date.format("%Y-%m-%d").to_string()`. -/
def formatDate (d : NaiveDate) : String := String.mk (formatDateChars d)

def parseNatDigitsCore : List Char → Nat → Option Nat
  | [], acc => some acc
  | c :: cs, acc =>
      match digitVal? c with
      | none => none
      | some d => parseNatDigitsCore cs (acc * 10 + d)

/-- Parse a non-empty all-digit character list as a natural number. -/
def parseNatDigits (l : List Char) : Option Nat :=
  match l with
  | [] => none
  | _ => parseNatDigitsCore l 0

/-- `NaiveDate::parse_from_str(text, "%Y-%m-%d")`: three dash-separated decimal
components forming a calendar-valid date. -/
def parseDate (s : String) : Except String NaiveDate :=
  match splitChar '-' s.data with
  | [ys, ms, ds] =>
      match parseNatDigits ys, parseNatDigits ms, parseNatDigits ds with
      | some y, some m, some d =>
          if 1 ≤ m ∧ m ≤ 12 ∧ 1 ≤ d ∧ d ≤ daysInMonth y m ∧ y ≤ 9999 then .ok ⟨y, m, d⟩
          else .error "input is out of range"
      | _, _, _ => .error "invalid character in input"
  | _ => .error "premature end of input"

/-! ## `mod updated_since_format` (`src/v3/util.rs`) -/

namespace updated_since_format

/-- Model of the `serialize` function: it `unwrap`s its `Option` argument —
the panic on `None` is modelled as `Except.error` — then formats `%Y-%m-%d`. -/
def serialize (date : Option NaiveDate) : Except String String :=
  match date with
  | none => .error "called Option::unwrap() on a None value"
  | some d => .ok (formatDate d)

/-- Model of the `deserialize` function: expects a JSON string, parses it with
`%Y-%m-%d`, and wraps the result in `Some`. -/
def deserialize (v : Json) : Except String (Option NaiveDate) :=
  match v with
  | .str s =>
      match parseDate s with
      | .ok d => .ok (some d)
      | .error e => .error e
  | _ => .error "invalid type: expected a string"

end updated_since_format

/-! ## `OrderBy` (`src/v3/request.rs`) -/

/-- The sort-key enum, transcribed constructor by constructor from the
source: 24 ascending variants followed by their 24 `DESC` mirrors. -/
inductive OrderBy where
  | Number
  | YearFrom
  | Pieces
  | Minifigs
  | Rating
  | USRetailPrice
  | UKRetailPrice
  | CARetailPrice
  | DERetailPrice
  | FRRetailPrice
  | USPricePerPiece
  | UKPricePerPiece
  | CAPricePerPiece
  | DEPricePerPiece
  | FRPricePerPiece
  | Theme
  | Subtheme
  | Name
  | Random
  | QtyOwned
  | OwnCount
  | WantCount
  | UserRating
  | CollectionID
  | NumberDESC
  | YearFromDESC
  | PiecesDESC
  | MinifigsDESC
  | RatingDESC
  | USRetailPriceDESC
  | UKRetailPriceDESC
  | CARetailPriceDESC
  | DERetailPriceDESC
  | FRRetailPriceDESC
  | USPricePerPieceDESC
  | UKPricePerPieceDESC
  | CAPricePerPieceDESC
  | DEPricePerPieceDESC
  | FRPricePerPieceDESC
  | ThemeDESC
  | SubthemeDESC
  | NameDESC
  | RandomDESC
  | QtyOwnedDESC
  | OwnCountDESC
  | WantCountDESC
  | UserRatingDESC
  | CollectionIDDESC
deriving DecidableEq, Fintype

/-- `OrderBy::reversed`, transcribed arm by arm from the source. -/
def OrderBy.reversed : OrderBy → OrderBy
  | .Number => .NumberDESC
  | .YearFrom => .YearFromDESC
  | .Pieces => .PiecesDESC
  | .Minifigs => .MinifigsDESC
  | .Rating => .RatingDESC
  | .USRetailPrice => .USRetailPriceDESC
  | .UKRetailPrice => .UKRetailPriceDESC
  | .CARetailPrice => .CARetailPriceDESC
  | .DERetailPrice => .DERetailPriceDESC
  | .FRRetailPrice => .FRRetailPriceDESC
  | .USPricePerPiece => .USPricePerPieceDESC
  | .UKPricePerPiece => .UKPricePerPieceDESC
  | .CAPricePerPiece => .CAPricePerPieceDESC
  | .DEPricePerPiece => .DEPricePerPieceDESC
  | .FRPricePerPiece => .FRPricePerPieceDESC
  | .Theme => .ThemeDESC
  | .Subtheme => .SubthemeDESC
  | .Name => .NameDESC
  | .Random => .RandomDESC
  | .QtyOwned => .QtyOwnedDESC
  | .OwnCount => .OwnCountDESC
  | .WantCount => .WantCountDESC
  | .UserRating => .UserRatingDESC
  | .CollectionID => .CollectionIDDESC
  | .NumberDESC => .Number
  | .YearFromDESC => .YearFrom
  | .PiecesDESC => .Pieces
  | .MinifigsDESC => .Minifigs
  | .RatingDESC => .Rating
  | .USRetailPriceDESC => .USRetailPrice
  | .UKRetailPriceDESC => .UKRetailPrice
  | .CARetailPriceDESC => .CARetailPrice
  | .DERetailPriceDESC => .DERetailPrice
  | .FRRetailPriceDESC => .FRRetailPrice
  | .USPricePerPieceDESC => .USPricePerPiece
  | .UKPricePerPieceDESC => .UKPricePerPiece
  | .CAPricePerPieceDESC => .CAPricePerPiece
  | .DEPricePerPieceDESC => .DEPricePerPiece
  | .FRPricePerPieceDESC => .FRPricePerPiece
  | .ThemeDESC => .Theme
  | .SubthemeDESC => .Subtheme
  | .NameDESC => .Name
  | .RandomDESC => .Random
  | .QtyOwnedDESC => .QtyOwned
  | .OwnCountDESC => .OwnCount
  | .WantCountDESC => .WantCount
  | .UserRatingDESC => .UserRating
  | .CollectionIDDESC => .CollectionID

/-- Whether a variant is one of the descending (`...DESC`) constructors. -/
def OrderBy.isDescending : OrderBy → Bool
  | .NumberDESC => true
  | .YearFromDESC => true
  | .PiecesDESC => true
  | .MinifigsDESC => true
  | .RatingDESC => true
  | .USRetailPriceDESC => true
  | .UKRetailPriceDESC => true
  | .CARetailPriceDESC => true
  | .DERetailPriceDESC => true
  | .FRRetailPriceDESC => true
  | .USPricePerPieceDESC => true
  | .UKPricePerPieceDESC => true
  | .CAPricePerPieceDESC => true
  | .DEPricePerPieceDESC => true
  | .FRPricePerPieceDESC => true
  | .ThemeDESC => true
  | .SubthemeDESC => true
  | .NameDESC => true
  | .RandomDESC => true
  | .QtyOwnedDESC => true
  | .OwnCountDESC => true
  | .WantCountDESC => true
  | .UserRatingDESC => true
  | .CollectionIDDESC => true
  | _ => false

/-- serde's `Serialize` for the fieldless enum: the variant's name as a
JSON string. -/
def OrderBy.toVariantString : OrderBy → String
  | .Number => "Number"
  | .YearFrom => "YearFrom"
  | .Pieces => "Pieces"
  | .Minifigs => "Minifigs"
  | .Rating => "Rating"
  | .USRetailPrice => "USRetailPrice"
  | .UKRetailPrice => "UKRetailPrice"
  | .CARetailPrice => "CARetailPrice"
  | .DERetailPrice => "DERetailPrice"
  | .FRRetailPrice => "FRRetailPrice"
  | .USPricePerPiece => "USPricePerPiece"
  | .UKPricePerPiece => "UKPricePerPiece"
  | .CAPricePerPiece => "CAPricePerPiece"
  | .DEPricePerPiece => "DEPricePerPiece"
  | .FRPricePerPiece => "FRPricePerPiece"
  | .Theme => "Theme"
  | .Subtheme => "Subtheme"
  | .Name => "Name"
  | .Random => "Random"
  | .QtyOwned => "QtyOwned"
  | .OwnCount => "OwnCount"
  | .WantCount => "WantCount"
  | .UserRating => "UserRating"
  | .CollectionID => "CollectionID"
  | .NumberDESC => "NumberDESC"
  | .YearFromDESC => "YearFromDESC"
  | .PiecesDESC => "PiecesDESC"
  | .MinifigsDESC => "MinifigsDESC"
  | .RatingDESC => "RatingDESC"
  | .USRetailPriceDESC => "USRetailPriceDESC"
  | .UKRetailPriceDESC => "UKRetailPriceDESC"
  | .CARetailPriceDESC => "CARetailPriceDESC"
  | .DERetailPriceDESC => "DERetailPriceDESC"
  | .FRRetailPriceDESC => "FRRetailPriceDESC"
  | .USPricePerPieceDESC => "USPricePerPieceDESC"
  | .UKPricePerPieceDESC => "UKPricePerPieceDESC"
  | .CAPricePerPieceDESC => "CAPricePerPieceDESC"
  | .DEPricePerPieceDESC => "DEPricePerPieceDESC"
  | .FRPricePerPieceDESC => "FRPricePerPieceDESC"
  | .ThemeDESC => "ThemeDESC"
  | .SubthemeDESC => "SubthemeDESC"
  | .NameDESC => "NameDESC"
  | .RandomDESC => "RandomDESC"
  | .QtyOwnedDESC => "QtyOwnedDESC"
  | .OwnCountDESC => "OwnCountDESC"
  | .WantCountDESC => "WantCountDESC"
  | .UserRatingDESC => "UserRatingDESC"
  | .CollectionIDDESC => "CollectionIDDESC"

/-- serde's `Deserialize` for the fieldless enum: match the variant name,
otherwise an unknown-variant error. -/
def OrderBy.ofVariantString (s : String) : Except String OrderBy :=
  if s = "Number" then .ok .Number
  else if s = "YearFrom" then .ok .YearFrom
  else if s = "Pieces" then .ok .Pieces
  else if s = "Minifigs" then .ok .Minifigs
  else if s = "Rating" then .ok .Rating
  else if s = "USRetailPrice" then .ok .USRetailPrice
  else if s = "UKRetailPrice" then .ok .UKRetailPrice
  else if s = "CARetailPrice" then .ok .CARetailPrice
  else if s = "DERetailPrice" then .ok .DERetailPrice
  else if s = "FRRetailPrice" then .ok .FRRetailPrice
  else if s = "USPricePerPiece" then .ok .USPricePerPiece
  else if s = "UKPricePerPiece" then .ok .UKPricePerPiece
  else if s = "CAPricePerPiece" then .ok .CAPricePerPiece
  else if s = "DEPricePerPiece" then .ok .DEPricePerPiece
  else if s = "FRPricePerPiece" then .ok .FRPricePerPiece
  else if s = "Theme" then .ok .Theme
  else if s = "Subtheme" then .ok .Subtheme
  else if s = "Name" then .ok .Name
  else if s = "Random" then .ok .Random
  else if s = "QtyOwned" then .ok .QtyOwned
  else if s = "OwnCount" then .ok .OwnCount
  else if s = "WantCount" then .ok .WantCount
  else if s = "UserRating" then .ok .UserRating
  else if s = "CollectionID" then .ok .CollectionID
  else if s = "NumberDESC" then .ok .NumberDESC
  else if s = "YearFromDESC" then .ok .YearFromDESC
  else if s = "PiecesDESC" then .ok .PiecesDESC
  else if s = "MinifigsDESC" then .ok .MinifigsDESC
  else if s = "RatingDESC" then .ok .RatingDESC
  else if s = "USRetailPriceDESC" then .ok .USRetailPriceDESC
  else if s = "UKRetailPriceDESC" then .ok .UKRetailPriceDESC
  else if s = "CARetailPriceDESC" then .ok .CARetailPriceDESC
  else if s = "DERetailPriceDESC" then .ok .DERetailPriceDESC
  else if s = "FRRetailPriceDESC" then .ok .FRRetailPriceDESC
  else if s = "USPricePerPieceDESC" then .ok .USPricePerPieceDESC
  else if s = "UKPricePerPieceDESC" then .ok .UKPricePerPieceDESC
  else if s = "CAPricePerPieceDESC" then .ok .CAPricePerPieceDESC
  else if s = "DEPricePerPieceDESC" then .ok .DEPricePerPieceDESC
  else if s = "FRPricePerPieceDESC" then .ok .FRPricePerPieceDESC
  else if s = "ThemeDESC" then .ok .ThemeDESC
  else if s = "SubthemeDESC" then .ok .SubthemeDESC
  else if s = "NameDESC" then .ok .NameDESC
  else if s = "RandomDESC" then .ok .RandomDESC
  else if s = "QtyOwnedDESC" then .ok .QtyOwnedDESC
  else if s = "OwnCountDESC" then .ok .OwnCountDESC
  else if s = "WantCountDESC" then .ok .WantCountDESC
  else if s = "UserRatingDESC" then .ok .UserRatingDESC
  else if s = "CollectionIDDESC" then .ok .CollectionIDDESC
  else .error ("unknown variant " ++ s)

/-! ## JSON rendering (`serde_json::to_string`) -/

/-- One hexadecimal digit character (lowercase, as serde_json emits). -/
def hexChar (d : Nat) : Char :=
  if d < 10 then digitChar d else Char.ofNat (87 + d)

/-- serde_json's escaping of one character inside a JSON string. -/
def escapeJsonChar (c : Char) : List Char :=
  if c = '"' then ['\\', '"']
  else if c = '\\' then ['\\', '\\']
  else if c.toNat < 32 then
    if c.toNat = 8 then ['\\', 'b']
    else if c = '\t' then ['\\', 't']
    else if c = '\n' then ['\\', 'n']
    else if c.toNat = 12 then ['\\', 'f']
    else if c = '\r' then ['\\', 'r']
    else ['\\', 'u', '0', '0', hexChar (c.toNat / 16), hexChar (c.toNat % 16)]
  else [c]

def renderJsonString (s : String) : String :=
  "\"" ++ String.mk ((s.data.map escapeJsonChar).flatten) ++ "\""

mutual

/-- Compact rendering of a JSON value, as `serde_json::to_string` emits it. -/
def renderJson : Json → String
  | .null => "null"
  | .bool true => "true"
  | .bool false => "false"
  | .num n => intToString n
  | .str s => renderJsonString s
  | .arr es => "[" ++ renderJsonArr es ++ "]"
  | .obj fs => "\x7b" ++ renderJsonFields fs ++ "\x7d"

def renderJsonArr : List Json → String
  | [] => ""
  | [x] => renderJson x
  | x :: y :: xs => renderJson x ++ "," ++ renderJsonArr (y :: xs)

def renderJsonFields : List (String × Json) → String
  | [] => ""
  | [(k, v)] => renderJsonString k ++ ":" ++ renderJson v
  | (k, v) :: w :: xs => renderJsonString k ++ ":" ++ renderJson v ++ "," ++ renderJsonFields (w :: xs)

end

/-! ## `GetSetsParameters` (`src/v3/request.rs`) -/

/-- One field's contribution to a serde-serialized object under
`#[serde(skip_serializing_if = "Option::is_none")]`. -/
def optField {α : Type} (k : String) (o : Option α) (f : α → Json) : List (String × Json) :=
  match o with
  | none => []
  | some a => [(k, f a)]

/-- The catalog-query parameter bag. Field names and order are the source's;
`Default` gives every field its unset state. -/
structure GetSetsParameters where
  set_id : Option Nat := none
  query : Option String := none
  theme : Option String := none
  subtheme : Option String := none
  full_set_number : Option String := none
  year : List Int := []
  tag : Option String := none
  owned : Option util.Flag := none
  wanted : Option util.Flag := none
  updated_since : Option NaiveDate := none
  order_by : Option OrderBy := none
  page_size : Option Nat := none
  page_number : Option Nat := none
  extended_data : Option util.Flag := none
deriving DecidableEq

namespace GetSetsParameters

/-- `GetSetsParameters::new()` (the `Default` value). -/
def new : GetSetsParameters := {}

/- The fluent setters. Where the Rust method name coincides with the field it
sets, the Lean name carries a `with_` prefix (Lean cannot overload a
structure's field projection); the modelled Rust method is named in each
doc comment. -/

/-- `GetSetsParameters::set_id`. -/
def with_set_id (p : GetSetsParameters) (set_id : Nat) : GetSetsParameters :=
  { p with set_id := some set_id }

/-- `GetSetsParameters::year`: clears the year list, then pushes the single
year. -/
def with_year (p : GetSetsParameters) (year : Int) : GetSetsParameters :=
  { p with year := [year] }

/-- `GetSetsParameters::years`. -/
def years (p : GetSetsParameters) (year : List Int) : GetSetsParameters :=
  { p with year := year }

/-- `GetSetsParameters::query`. -/
def with_query (p : GetSetsParameters) (query : String) : GetSetsParameters :=
  { p with query := some query }

/-- `GetSetsParameters::theme`. -/
def with_theme (p : GetSetsParameters) (theme : String) : GetSetsParameters :=
  { p with theme := some theme }

/-- `GetSetsParameters::subtheme`. -/
def with_subtheme (p : GetSetsParameters) (subtheme : String) : GetSetsParameters :=
  { p with subtheme := some subtheme }

/-- `GetSetsParameters::full_set_number`. -/
def with_full_set_number (p : GetSetsParameters) (full_set_number : String) : GetSetsParameters :=
  { p with full_set_number := some full_set_number }

/-- `GetSetsParameters::tag`. -/
def with_tag (p : GetSetsParameters) (tag : String) : GetSetsParameters :=
  { p with tag := some tag }

/-- `GetSetsParameters::owned_by_user`. -/
def owned_by_user (p : GetSetsParameters) (owned : Bool) : GetSetsParameters :=
  { p with owned := if owned then some {} else none }

/-- `GetSetsParameters::wanted_by_user`. -/
def wanted_by_user (p : GetSetsParameters) (wanted : Bool) : GetSetsParameters :=
  { p with wanted := if wanted then some {} else none }

/-- `GetSetsParameters::extended_data`. -/
def with_extended_data (p : GetSetsParameters) (extended_data : Bool) : GetSetsParameters :=
  { p with extended_data := if extended_data then some {} else none }

/-- `GetSetsParameters::updated_since`. -/
def with_updated_since (p : GetSetsParameters) (date : NaiveDate) : GetSetsParameters :=
  { p with updated_since := some date }

/-- `GetSetsParameters::order_by`. -/
def with_order_by (p : GetSetsParameters) (order_by : OrderBy) : GetSetsParameters :=
  { p with order_by := some order_by }

/-- The `warn!` emission of `GetSetsParameters::page_size` (the `log`
feature's diagnostics side channel); the setter itself never rejects. -/
def page_size_warning (page_size : Nat) : Option String :=
  if page_size > 500 then some s!"Given page_size was {page_size}, but the maximum is 500"
  else if page_size = 0 then some "Zero page size is not valid"
  else none

/-- `GetSetsParameters::page_size`: stores the value unconditionally. -/
def with_page_size (p : GetSetsParameters) (page_size : Nat) : GetSetsParameters :=
  { p with page_size := some page_size }

/-- `GetSetsParameters::page_number`. -/
def with_page_number (p : GetSetsParameters) (page_number : Nat) : GetSetsParameters :=
  { p with page_number := some page_number }

/-- serde serialization of the bag to its JSON `params` object: fields in
declaration order, camelCase keys (`full_set_number` renamed `setNumber`),
each `None` field and an empty `year` list skipped entirely. -/
def toPairs (p : GetSetsParameters) : List (String × Json) :=
  optField "setId" p.set_id (fun n => .num n) ++
  optField "query" p.query .str ++
  optField "theme" p.theme .str ++
  optField "subtheme" p.subtheme .str ++
  optField "setNumber" p.full_set_number .str ++
  (if p.year.isEmpty then [] else [("year", .str (int_vec_as_commastr.serialize p.year))]) ++
  optField "tag" p.tag .str ++
  optField "owned" p.owned util.Flag.serializeJson ++
  optField "wanted" p.wanted util.Flag.serializeJson ++
  optField "updatedSince" p.updated_since (fun d => .str (formatDate d)) ++
  optField "orderBy" p.order_by (fun o => .str o.toVariantString) ++
  optField "pageSize" p.page_size (fun n => .num n) ++
  optField "pageNumber" p.page_number (fun n => .num n) ++
  optField "extendedData" p.extended_data util.Flag.serializeJson

/-- The same serialization with the `updated_since` serializer's `unwrap`
kept fallible: serde only invokes `updated_since_format::serialize` when the
`skip_serializing_if` gate saw `Some`, and that serializer `unwrap`s. -/
def toPairsE (p : GetSetsParameters) : Except String (List (String × Json)) :=
  match (if p.updated_since.isSome
         then (updated_since_format.serialize p.updated_since).map
                (fun s => [("updatedSince", Json.str s)])
         else .ok []) with
  | .error e => .error e
  | .ok upd =>
      .ok (optField "setId" p.set_id (fun n => .num n) ++
        optField "query" p.query .str ++
        optField "theme" p.theme .str ++
        optField "subtheme" p.subtheme .str ++
        optField "setNumber" p.full_set_number .str ++
        (if p.year.isEmpty then [] else [("year", .str (int_vec_as_commastr.serialize p.year))]) ++
        optField "tag" p.tag .str ++
        optField "owned" p.owned util.Flag.serializeJson ++
        optField "wanted" p.wanted util.Flag.serializeJson ++
        upd ++
        optField "orderBy" p.order_by (fun o => .str o.toVariantString) ++
        optField "pageSize" p.page_size (fun n => .num n) ++
        optField "pageNumber" p.page_number (fun n => .num n) ++
        optField "extendedData" p.extended_data util.Flag.serializeJson)

/-- `serde_json::to_string(&params)`. -/
def to_json_stringE (p : GetSetsParameters) : Except String String :=
  match p.toPairsE with
  | .error e => .error e
  | .ok fields => .ok (renderJson (.obj fields))

end GetSetsParameters

/-! ## Collection-mutation parameter bags (`src/v3/request.rs`) -/

/-- The `setCollection` parameter bag. -/
structure SetCollectionParameters where
  own : Option Nat := none
  want : Option Nat := none
  qty_owned : Option Nat := none
  notes : Option String := none
  rating : Option Int := none
deriving DecidableEq

namespace SetCollectionParameters

/-- `SetCollectionParameters::new()`. -/
def new : SetCollectionParameters := {}

/-- `SetCollectionParameters::owned`: quantity zero clears the `own` flag but
still stores `qty_owned = Some(0)`; a positive quantity sets `own = Some(1)`. -/
def owned (p : SetCollectionParameters) (qty_owned : Nat) : SetCollectionParameters :=
  if qty_owned = 0 then { p with own := none, qty_owned := some qty_owned }
  else { p with own := some 1, qty_owned := some qty_owned }

/-- `SetCollectionParameters::wanted`. -/
def wanted (p : SetCollectionParameters) (wanted : Bool) : SetCollectionParameters :=
  { p with want := some (if wanted then 1 else 0) }

/-- `SetCollectionParameters::notes`. -/
def with_notes (p : SetCollectionParameters) (notes : String) : SetCollectionParameters :=
  { p with notes := some notes }

/-- `SetCollectionParameters::rating`. -/
def with_rating (p : SetCollectionParameters) (rating : Int) : SetCollectionParameters :=
  { p with rating := some rating }

/-- serde serialization: camelCase keys, `None` fields skipped. -/
def toPairs (p : SetCollectionParameters) : List (String × Json) :=
  optField "own" p.own (fun n => .num n) ++
  optField "want" p.want (fun n => .num n) ++
  optField "qtyOwned" p.qty_owned (fun n => .num n) ++
  optField "notes" p.notes .str ++
  optField "rating" p.rating (fun i => .num i)

end SetCollectionParameters

/-- The `setMinifigCollection` parameter bag. -/
structure SetMinifigCollectionParameters where
  own : Option Nat := none
  want : Option Nat := none
  qty_owned : Option Nat := none
  notes : Option String := none
deriving DecidableEq

namespace SetMinifigCollectionParameters

/-- `SetMinifigCollectionParameters::new()`. -/
def new : SetMinifigCollectionParameters := {}

/-- `SetMinifigCollectionParameters::owned`: quantity zero stores
`own = Some(0)` and clears `qty_owned`; a positive quantity clears `own` and
stores the quantity. -/
def owned (p : SetMinifigCollectionParameters) (qty_owned : Nat) : SetMinifigCollectionParameters :=
  if qty_owned = 0 then { p with own := some 0, qty_owned := none }
  else { p with own := none, qty_owned := some qty_owned }

/-- `SetMinifigCollectionParameters::wanted`. -/
def wanted (p : SetMinifigCollectionParameters) (wanted : Bool) : SetMinifigCollectionParameters :=
  { p with want := some (if wanted then 1 else 0) }

/-- `SetMinifigCollectionParameters::notes`. -/
def with_notes (p : SetMinifigCollectionParameters) (notes : String) : SetMinifigCollectionParameters :=
  { p with notes := some notes }

/-- serde serialization: camelCase keys, `None` fields skipped. -/
def toPairs (p : SetMinifigCollectionParameters) : List (String × Json) :=
  optField "own" p.own (fun n => .num n) ++
  optField "want" p.want (fun n => .num n) ++
  optField "qtyOwned" p.qty_owned (fun n => .num n) ++
  optField "notes" p.notes .str

end SetMinifigCollectionParameters

/-! ## Requests (`src/v3/request.rs`) -/

namespace request

/-- `request::Error` (payloads reduced to their display strings). -/
inductive Error where
  | UrlParseError (msg : String)
  | SerdeJson (msg : String)
  | Message (msg : String)
deriving DecidableEq

end request

/-- The `checkKey` request. -/
structure CheckKey where
  api_key : String
deriving DecidableEq

/-- `CheckKey::new`. -/
def CheckKey.new (api_key : String) : CheckKey := ⟨api_key⟩

/-- `CheckKey`'s `encode_query`: appends the single pair `apiKey`. -/
def CheckKey.encode_query (c : CheckKey) : Except request.Error (List (String × String)) :=
  .ok [("apiKey", c.api_key)]

/-- `CheckKey`'s `method_name`. -/
def CheckKey.method_name (_ : CheckKey) : String := "checkKey"

/-- The `getSets` request. -/
structure GetSets where
  api_key : String
  user_hash : Option String
  params : GetSetsParameters

/-- `GetSets::new`. -/
def GetSets.new (api_key : String) (user_hash : Option String) (params : GetSetsParameters) : GetSets :=
  ⟨api_key, user_hash, params⟩

/-- `GetSets`'s `encode_query`: serializes the bag with `serde_json::to_string`
(the `?` propagates its error as `Error::SerdeJson`), then appends `apiKey`,
`params`, `userHash` in that order, with a missing user hash emitted as the
empty string (`unwrap_or("")`). -/
def GetSets.encode_query (g : GetSets) : Except request.Error (List (String × String)) :=
  match g.params.to_json_stringE with
  | .error e => .error (.SerdeJson e)
  | .ok params =>
      .ok [("apiKey", g.api_key), ("params", params), ("userHash", g.user_hash.getD "")]

/-- `GetSets`'s `method_name`. -/
def GetSets.method_name (_ : GetSets) : String := "getSets"

/-- The `warn!` emission of `GetSets::encode_query` (the `log` feature's
diagnostics side channel): requesting wanted/owned filtering without a user
hash warns but does not fail. -/
def GetSets.encode_warnings (g : GetSets) : List String :=
  if (g.params.wanted.isSome || g.params.owned.isSome) && g.user_hash.isNone then
    ["User hash is required when wanted/owned parameters are used in GetSets"]
  else []

/-! ## The response envelope (`src/v3/mod.rs`, `src/v3/response.rs`) -/

namespace response

/-- `response::Error`: the error payload of a failed request. -/
structure Error where
  message : String
deriving DecidableEq

/-- serde decode of `response::Error` from the (remaining) object fields. -/
def Error.fromPairs (fields : List (String × Json)) : Except String Error :=
  match lookupKey fields "message" with
  | some (.str m) => .ok ⟨m⟩
  | some _ => .error "invalid type: expected a string"
  | none => .error "missing field `message`"

end response

/-- `Response<T>`: the internally-tagged success/error envelope. -/
inductive Response (T : Type) where
  | Ok (value : T)
  | Err (err : response.Error)

/-- `CheckKeyResponse`: the empty payload of a successful `checkKey`. -/
structure CheckKeyResponse where
deriving DecidableEq

/-- serde decode of the empty-payload struct: any map is accepted (unknown
fields are ignored by default). -/
def decodeCheckKeyResponse (_ : List (String × Json)) : Except String CheckKeyResponse :=
  .ok {}

/-- serde decode of the envelope (`#[serde(tag = "status")]`): the top-level
value must be a map; its `status` field selects the variant (`"success"`
decodes the remaining fields as `T`, `"error"` as `response::Error`); any
other tag, a missing tag, or a non-map input is an error. -/
def decodeResponse {T : Type} (decT : List (String × Json) → Except String T)
    (v : Json) : Except String (Response T) :=
  match v with
  | .obj fields =>
      match lookupKey fields "status" with
      | some (.str s) =>
          if s = "success" then
            match decT (removeKey fields "status") with
            | .ok t => .ok (.Ok t)
            | .error e => .error e
          else if s = "error" then
            match response.Error.fromPairs (removeKey fields "status") with
            | .ok err => .ok (.Err err)
            | .error e => .error e
          else .error ("unknown variant " ++ s)
      | some _ => .error "invalid type for tag `status`"
      | none => .error "missing field `status`"
  | _ => .error "invalid type: expected a map"

/-! ## serde deserialization of `GetSetsParameters` -/

/-- serde decode of an `Option<u64>`/`Option<usize>` field with
`#[serde(default)]`: absent or `null` is `None`; a non-negative JSON integer
is `Some`. -/
def decodeOptNatField (fields : List (String × Json)) (k : String) : Except String (Option Nat) :=
  match lookupKey fields k with
  | none => .ok none
  | some .null => .ok none
  | some (.num i) =>
      if 0 ≤ i then .ok (some i.toNat)
      else .error "invalid value: negative integer for an unsigned field"
  | some _ => .error "invalid type: expected an unsigned integer"

/-- serde decode of an `Option<&str>` field with `#[serde(default)]`. -/
def decodeOptStrField (fields : List (String × Json)) (k : String) : Except String (Option String) :=
  match lookupKey fields k with
  | none => .ok none
  | some .null => .ok none
  | some (.str s) => .ok (some s)
  | some _ => .error "invalid type: expected a borrowed string"

/-- serde decode of an `Option<Flag>` field with `#[serde(default)]`. -/
def decodeOptFlagField (fields : List (String × Json)) (k : String) : Except String (Option util.Flag) :=
  match lookupKey fields k with
  | none => .ok none
  | some .null => .ok none
  | some v =>
      match util.Flag.deserializeJson v with
      | .ok f => .ok (some f)
      | .error e => .error e

/-- serde decode of the `Option<OrderBy>` field with `#[serde(default)]`. -/
def decodeOptOrderByField (fields : List (String × Json)) (k : String) : Except String (Option OrderBy) :=
  match lookupKey fields k with
  | none => .ok none
  | some .null => .ok none
  | some (.str s) =>
      match OrderBy.ofVariantString s with
      | .ok o => .ok (some o)
      | .error e => .error e
  | some _ => .error "invalid type: expected a string"

/-- serde decode of the `updated_since` field: `#[serde(default)]` makes an
absent key `None`; a present value goes through
`updated_since_format::deserialize`. -/
def decodeUpdatedSinceField (fields : List (String × Json)) : Except String (Option NaiveDate) :=
  match lookupKey fields "updatedSince" with
  | none => .ok none
  | some v => updated_since_format.deserialize v

/-- serde deserialization of `GetSetsParameters` from its JSON object. The
`year` field carries `#[serde(with = "util::int_vec_as_commastr")]` but no
`#[serde(default)]`, so an absent `year` key is a missing-field error; every
other field defaults to its unset state when absent. -/
def GetSetsParameters.fromPairs (fields : List (String × Json)) : Except String GetSetsParameters := do
  let set_id ← decodeOptNatField fields "setId"
  let query ← decodeOptStrField fields "query"
  let theme ← decodeOptStrField fields "theme"
  let subtheme ← decodeOptStrField fields "subtheme"
  let full_set_number ← decodeOptStrField fields "setNumber"
  let year ← (match lookupKey fields "year" with
    | none => Except.error "missing field `year`"
    | some v => int_vec_as_commastr.deserialize v)
  let tag ← decodeOptStrField fields "tag"
  let owned ← decodeOptFlagField fields "owned"
  let wanted ← decodeOptFlagField fields "wanted"
  let updated_since ← decodeUpdatedSinceField fields
  let order_by ← decodeOptOrderByField fields "orderBy"
  let page_size ← decodeOptNatField fields "pageSize"
  let page_number ← decodeOptNatField fields "pageNumber"
  let extended_data ← decodeOptFlagField fields "extendedData"
  return { set_id, query, theme, subtheme, full_set_number, year, tag, owned,
           wanted, updated_since, order_by, page_size, page_number, extended_data }

/-! ## Lemmas about digit printing and parsing -/

theorem natToCharsAux_irrel (f1 : Nat) : ∀ (f2 n : Nat), n < f1 → n < f2 →
    natToCharsAux f1 n = natToCharsAux f2 n := by
  induction f1 with
  | zero => intro f2 n h1 _; omega
  | succ f1 ih =>
    intro f2 n h1 h2
    cases f2 with
    | zero => omega
    | succ f2 =>
      simp only [natToCharsAux]
      by_cases h10 : n < 10
      · simp [h10]
      · have hd : n / 10 < n := Nat.div_lt_self (by omega) (by omega)
        simp only [if_neg h10]
        rw [ih f2 (n / 10) (by omega) (by omega)]

theorem natToChars_unfold (n : Nat) :
    natToChars n = if n < 10 then [digitChar n] else natToChars (n / 10) ++ [digitChar (n % 10)] := by
  show natToCharsAux (n + 1) n = _
  simp only [natToCharsAux]
  by_cases h10 : n < 10
  · simp [h10]
  · have hd : n / 10 < n := Nat.div_lt_self (by omega) (by omega)
    simp only [if_neg h10]
    rw [natToCharsAux_irrel n (n / 10 + 1) (n / 10) (by omega) (by omega)]
    rfl

theorem natToChars_ne_nil (n : Nat) : natToChars n ≠ [] := by
  rw [natToChars_unfold]
  by_cases h10 : n < 10 <;> simp [h10]

/-- Every character a digit printer emits is a decimal digit character. -/
theorem natToChars_mem (n : Nat) : ∀ c ∈ natToChars n, ∃ d, d < 10 ∧ c = digitChar d := by
  induction n using Nat.strong_induction_on with
  | _ n ih =>
    rw [natToChars_unfold]
    by_cases h10 : n < 10
    · simp only [if_pos h10, List.mem_singleton]
      intro c hc
      exact ⟨n, h10, hc⟩
    · have hd : n / 10 < n := Nat.div_lt_self (by omega) (by omega)
      simp only [if_neg h10, List.mem_append, List.mem_singleton]
      intro c hc
      rcases hc with hc | hc
      · exact ih (n / 10) hd c hc
      · exact ⟨n % 10, Nat.mod_lt _ (by omega), hc⟩

/-- The character facts needed about decimal digits. -/
theorem digitChar_facts {d : Nat} (h : d < 10) :
    digitVal? (digitChar d) = some d ∧ (digitChar d).isWhitespace = false ∧
    digitChar d ≠ ',' ∧ digitChar d ≠ '-' ∧ digitChar d ≠ '+' := by
  interval_cases d <;> exact ⟨by decide, by decide, by decide, by decide, by decide⟩

theorem parseNatDigitsCore_append (l1 l2 : List Char) (acc : Nat) :
    parseNatDigitsCore (l1 ++ l2) acc =
      match parseNatDigitsCore l1 acc with
      | none => none
      | some a => parseNatDigitsCore l2 a := by
  induction l1 generalizing acc with
  | nil => simp [parseNatDigitsCore]
  | cons c cs ih =>
    simp only [List.cons_append, parseNatDigitsCore]
    cases digitVal? c <;> simp [ih]

theorem parseNatDigitsCore_natToChars (n : Nat) : ∀ acc : Nat,
    parseNatDigitsCore (natToChars n) acc = some (acc * 10 ^ (natToChars n).length + n) := by
  induction n using Nat.strong_induction_on with
  | _ n ih =>
    intro acc
    rw [natToChars_unfold]
    by_cases h10 : n < 10
    · simp [if_pos h10, parseNatDigitsCore, (digitChar_facts h10).1]
    · have hd : n / 10 < n := Nat.div_lt_self (by omega) (by omega)
      have hm : n % 10 < 10 := Nat.mod_lt _ (by omega)
      simp only [if_neg h10, parseNatDigitsCore_append, ih (n / 10) hd acc]
      simp only [parseNatDigitsCore, (digitChar_facts hm).1, List.length_append,
        List.length_singleton]
      congr 1
      have : (acc * 10 ^ (natToChars (n / 10)).length + n / 10) * 10 + n % 10
          = acc * 10 ^ ((natToChars (n / 10)).length + 1) + (n / 10 * 10 + n % 10) := by ring
      rw [this]
      omega

theorem fromStrRadix10Core_append (neg : Bool) (l1 l2 : List Char) (acc : Int) :
    fromStrRadix10Core neg (l1 ++ l2) acc =
      match fromStrRadix10Core neg l1 acc with
      | .error e => .error e
      | .ok a => fromStrRadix10Core neg l2 a := by
  induction l1 generalizing acc with
  | nil => simp [fromStrRadix10Core]
  | cons c cs ih =>
    simp only [List.cons_append, fromStrRadix10Core]
    cases digitVal? c with
    | none => simp
    | some d =>
      simp only
      cases neg with
      | true =>
        by_cases hlt : acc * 10 - d < i32Min <;> simp [hlt, ih]
      | false =>
        by_cases hgt : acc * 10 + d > i32Max <;> simp [hgt, ih]

theorem fromStrRadix10Core_pos (n : Nat) : ∀ acc : Int, 0 ≤ acc →
    acc * 10 ^ (natToChars n).length + n ≤ i32Max →
    fromStrRadix10Core false (natToChars n) acc
      = .ok (acc * 10 ^ (natToChars n).length + n) := by
  induction n using Nat.strong_induction_on with
  | _ n ih =>
    intro acc hacc hbound
    rw [natToChars_unfold] at hbound ⊢
    by_cases h10 : n < 10
    · simp only [if_pos h10, List.length_singleton, pow_one] at hbound ⊢
      have hcond : ¬ (acc * 10 + ((n : Nat) : Int) > i32Max) := by omega
      simp only [fromStrRadix10Core, (digitChar_facts h10).1, if_neg hcond]
      simp
    · have hd : n / 10 < n := Nat.div_lt_self (by omega) (by omega)
      have hm : n % 10 < 10 := Nat.mod_lt _ (by omega)
      simp only [if_neg h10, List.length_append, List.length_singleton] at hbound ⊢
      have hsplit : acc * 10 ^ ((natToChars (n / 10)).length + 1) + (n : Int)
          = (acc * 10 ^ (natToChars (n / 10)).length + ((n / 10 : Nat) : Int)) * 10
            + ((n % 10 : Nat) : Int) := by
        push_cast
        ring_nf
        omega
      have hmid : acc * 10 ^ (natToChars (n / 10)).length + ((n / 10 : Nat) : Int) ≤ i32Max := by
        have h0 : (0 : Int) ≤ acc * 10 ^ (natToChars (n / 10)).length + ((n / 10 : Nat) : Int) := by
          positivity
        omega
      rw [fromStrRadix10Core_append, ih (n / 10) hd acc hacc hmid]
      have hcond : ¬ ((acc * 10 ^ (natToChars (n / 10)).length + ((n / 10 : Nat) : Int)) * 10
          + ((n % 10 : Nat) : Int) > i32Max) := by omega
      simp only [fromStrRadix10Core, (digitChar_facts hm).1, if_neg hcond]
      rw [hsplit]
      simp

theorem fromStrRadix10Core_neg (n : Nat) : ∀ acc : Int, acc ≤ 0 →
    i32Min ≤ acc * 10 ^ (natToChars n).length - n →
    fromStrRadix10Core true (natToChars n) acc
      = .ok (acc * 10 ^ (natToChars n).length - n) := by
  induction n using Nat.strong_induction_on with
  | _ n ih =>
    intro acc hacc hbound
    rw [natToChars_unfold] at hbound ⊢
    by_cases h10 : n < 10
    · simp only [if_pos h10, List.length_singleton, pow_one] at hbound ⊢
      have hcond : ¬ (acc * 10 - ((n : Nat) : Int) < i32Min) := by omega
      simp only [fromStrRadix10Core, (digitChar_facts h10).1, if_neg hcond]
      simp
    · have hd : n / 10 < n := Nat.div_lt_self (by omega) (by omega)
      have hm : n % 10 < 10 := Nat.mod_lt _ (by omega)
      simp only [if_neg h10, List.length_append, List.length_singleton] at hbound ⊢
      have hsplit : acc * 10 ^ ((natToChars (n / 10)).length + 1) - (n : Int)
          = (acc * 10 ^ (natToChars (n / 10)).length - ((n / 10 : Nat) : Int)) * 10
            - ((n % 10 : Nat) : Int) := by
        push_cast
        ring_nf
        omega
      have hmid : i32Min ≤ acc * 10 ^ (natToChars (n / 10)).length - ((n / 10 : Nat) : Int) := by
        have h0 : acc * 10 ^ (natToChars (n / 10)).length - ((n / 10 : Nat) : Int) ≤ 0 := by
          have hp : (0 : Int) ≤ 10 ^ (natToChars (n / 10)).length := by positivity
          nlinarith [Int.natCast_nonneg (n / 10)]
        omega
      rw [fromStrRadix10Core_append, ih (n / 10) hd acc hacc hmid]
      have hcond : ¬ ((acc * 10 ^ (natToChars (n / 10)).length - ((n / 10 : Nat) : Int)) * 10
          - ((n % 10 : Nat) : Int) < i32Min) := by omega
      simp only [fromStrRadix10Core, (digitChar_facts hm).1, if_neg hcond]
      rw [hsplit]
      simp

/-- Printing an in-range `i32` and parsing it back is the identity. -/
theorem i32FromStrRadix10_intToString (i : Int) (h1 : i32Min ≤ i) (h2 : i ≤ i32Max) :
    i32FromStrRadix10 (intToString i) = .ok i := by
  unfold intToString intToChars
  by_cases hneg : i < 0
  · simp only [if_pos hneg]
    unfold i32FromStrRadix10
    have hdata : (String.mk ('-' :: natToChars i.natAbs)).data = '-' :: natToChars i.natAbs := rfl
    rw [hdata]
    simp only [if_neg (by decide : ¬ ('-' : Char) = '+'), if_pos rfl,
      if_neg (natToChars_ne_nil i.natAbs)]
    have habs : ((i.natAbs : Nat) : Int) = -i := by omega
    have := fromStrRadix10Core_neg i.natAbs 0 le_rfl (by rw [habs]; simpa using h1)
    rw [this, habs]
    norm_num
  · simp only [if_neg hneg]
    unfold i32FromStrRadix10
    have hdata : (String.mk (natToChars i.toNat)).data = natToChars i.toNat := rfl
    rw [hdata]
    obtain ⟨c, rest, hcons⟩ := List.exists_cons_of_ne_nil (natToChars_ne_nil i.toNat)
    obtain ⟨d, hd10, hcd⟩ := natToChars_mem i.toNat c (by rw [hcons]; exact List.mem_cons_self _ _)
    have hfacts := digitChar_facts hd10
    rw [hcons]
    simp only [if_neg (hcd ▸ hfacts.2.2.2.2), if_neg (hcd ▸ hfacts.2.2.2.1)]
    rw [← hcons]
    have htn : ((i.toNat : Nat) : Int) = i := by omega
    have := fromStrRadix10Core_pos i.toNat 0 le_rfl (by rw [htn]; simpa using h2)
    rw [this, htn]
    norm_num

/-! ## Lemmas about split, trim, and join -/

theorem splitChar_ne_nil (sep : Char) (l : List Char) : splitChar sep l ≠ [] := by
  induction l with
  | nil => simp [splitChar]
  | cons c cs ih =>
    simp only [splitChar]
    by_cases hc : c = sep
    · simp [hc]
    · simp only [if_neg hc]
      cases hr : splitChar sep cs with
      | nil => simp
      | cons h t => simp

theorem splitChar_of_not_mem (sep : Char) (l : List Char) (h : sep ∉ l) :
    splitChar sep l = [l] := by
  induction l with
  | nil => rfl
  | cons c cs ih =>
    simp only [List.mem_cons, not_or] at h
    have hc : ¬ c = sep := fun hh => h.1 hh.symm
    simp only [splitChar, if_neg hc, ih h.2]

theorem splitChar_append (sep : Char) (l1 l2 : List Char) (h : sep ∉ l1) :
    splitChar sep (l1 ++ sep :: l2) = l1 :: splitChar sep l2 := by
  induction l1 with
  | nil => simp [splitChar]
  | cons c cs ih =>
    simp only [List.mem_cons, not_or] at h
    have hc : ¬ c = sep := fun hh => h.1 hh.symm
    simp only [List.cons_append, splitChar, if_neg hc, List.append_eq, ih h.2]

theorem dropWhile_of_head_neg {p : Char → Bool} : ∀ (l : List Char),
    (∀ c ∈ l, p c = false) → l.dropWhile p = l := by
  intro l h
  cases l with
  | nil => rfl
  | cons c cs => simp [List.dropWhile, h c (List.mem_cons_self _ _)]

theorem trimChars_of_no_ws (l : List Char) (h : ∀ c ∈ l, c.isWhitespace = false) :
    trimChars l = l := by
  unfold trimChars
  rw [dropWhile_of_head_neg l h,
    dropWhile_of_head_neg l.reverse (fun c hc => h c (List.mem_reverse.mp hc)),
    List.reverse_reverse]

theorem trimChars_cons_ws (c : Char) (l : List Char) (h : c.isWhitespace = true) :
    trimChars (c :: l) = trimChars l := by
  unfold trimChars
  rw [List.dropWhile_cons_of_pos h]

/-- No character of a printed integer is a comma or whitespace. -/
theorem intToChars_clean (i : Int) :
    ∀ c ∈ intToChars i, c ≠ ',' ∧ c.isWhitespace = false := by
  intro c hc
  unfold intToChars at hc
  by_cases hneg : i < 0
  · rw [if_pos hneg] at hc
    rcases List.mem_cons.mp hc with hc | hc
    · subst hc; exact ⟨by decide, by decide⟩
    · obtain ⟨d, hd10, hcd⟩ := natToChars_mem _ c hc
      subst hcd
      exact ⟨(digitChar_facts hd10).2.2.1, (digitChar_facts hd10).2.1⟩
  · rw [if_neg hneg] at hc
    obtain ⟨d, hd10, hcd⟩ := natToChars_mem _ c hc
    subst hcd
    exact ⟨(digitChar_facts hd10).2.2.1, (digitChar_facts hd10).2.1⟩

/-- Parsing one printed token (whatever whitespace precedes it was trimmed
away already by this statement's use of the raw printed characters). -/
theorem parse_printed_token (y : Int) (h1 : i32Min ≤ y) (h2 : y ≤ i32Max) :
    i32FromStrRadix10 (rustTrim (String.mk (intToChars y))) = .ok y := by
  have htrim : trimChars (intToChars y) = intToChars y :=
    trimChars_of_no_ws _ (fun c hc => (intToChars_clean y c hc).2)
  show i32FromStrRadix10 (String.mk (trimChars (intToChars y))) = .ok y
  rw [htrim]
  exact i32FromStrRadix10_intToString y h1 h2

theorem parseTokens_cons_congr (t t' : String) (ts : List String) (h : rustTrim t = rustTrim t') :
    int_vec_as_commastr.parseTokens (t :: ts) = int_vec_as_commastr.parseTokens (t' :: ts) := by
  simp only [int_vec_as_commastr.parseTokens, h]

theorem parseTokens_cons_ok (t : String) (ts : List String) (i : Int) (is : List Int)
    (ht : i32FromStrRadix10 (rustTrim t) = .ok i)
    (hts : int_vec_as_commastr.parseTokens ts = .ok is) :
    int_vec_as_commastr.parseTokens (t :: ts) = .ok (i :: is) := by
  simp only [int_vec_as_commastr.parseTokens, ht, hts]

theorem comma_not_mem_intToChars (y : Int) : ',' ∉ intToChars y :=
  fun hmem => (intToChars_clean y ',' hmem).1 rfl

theorem parseTokens_join (ys : List Int) (hne : ys ≠ [])
    (hb : ∀ y ∈ ys, i32Min ≤ y ∧ y ≤ i32Max) :
    int_vec_as_commastr.parseTokens
      ((splitChar ',' (int_vec_as_commastr.joinCommaSpace (ys.map intToChars))).map String.mk)
      = .ok ys := by
  induction ys with
  | nil => exact absurd rfl hne
  | cons y tail ih =>
    have hy := hb y (List.mem_cons_self _ _)
    cases tail with
    | nil =>
      simp only [List.map_cons, List.map_nil, int_vec_as_commastr.joinCommaSpace]
      rw [splitChar_of_not_mem _ _ (comma_not_mem_intToChars y)]
      simp only [List.map_cons, List.map_nil]
      exact parseTokens_cons_ok _ _ y [] (parse_printed_token y hy.1 hy.2) rfl
    | cons y2 rest =>
      simp only [List.map_cons, int_vec_as_commastr.joinCommaSpace]
      rw [splitChar_append _ _ _ (comma_not_mem_intToChars y)]
      obtain ⟨h0, t0, hsplit0⟩ := List.exists_cons_of_ne_nil
        (splitChar_ne_nil ',' (int_vec_as_commastr.joinCommaSpace ((y2 :: rest).map intToChars)))
      have hsp : splitChar ','
          (' ' :: int_vec_as_commastr.joinCommaSpace ((y2 :: rest).map intToChars))
          = (' ' :: h0) :: t0 := by
        simp only [splitChar, if_neg (by decide : ¬ (' ' : Char) = ','), hsplit0]
      simp only [List.map_cons] at hsp ⊢
      rw [hsp]
      simp only [List.map_cons]
      have hih := ih (by simp) (fun z hz => hb z (List.mem_cons_of_mem _ hz))
      rw [hsplit0] at hih
      simp only [List.map_cons] at hih
      have htr : rustTrim (String.mk (' ' :: h0)) = rustTrim (String.mk h0) := by
        show String.mk (trimChars (' ' :: h0)) = String.mk (trimChars h0)
        rw [trimChars_cons_ws _ _ (by decide)]
      have htail : int_vec_as_commastr.parseTokens (String.mk (' ' :: h0) :: t0.map String.mk)
          = .ok (y2 :: rest) := by
        rw [parseTokens_cons_congr _ (String.mk h0) _ htr]
        exact hih
      exact parseTokens_cons_ok _ _ y (y2 :: rest) (parse_printed_token y hy.1 hy.2) htail

/-- Round trip of the comma-list codec on any non-empty list of in-range
integers. -/
theorem int_vec_roundtrip (ys : List Int) (hne : ys ≠ [])
    (hb : ∀ y ∈ ys, i32Min ≤ y ∧ y ≤ i32Max) :
    int_vec_as_commastr.deserialize (.str (int_vec_as_commastr.serialize ys)) = .ok ys := by
  show int_vec_as_commastr.parseTokens
      ((splitChar ',' (String.mk (int_vec_as_commastr.joinCommaSpace (ys.map intToChars))).data).map String.mk) = .ok ys
  exact parseTokens_join ys hne hb

/-! ## Lemmas about date formatting and parsing -/

theorem parseNatDigitsCore_replicate_zero (k : Nat) :
    parseNatDigitsCore (List.replicate k '0') 0 = some 0 := by
  induction k with
  | zero => rfl
  | succ k ih => simpa [List.replicate, parseNatDigitsCore] using ih

theorem parseNatDigits_of_ne_nil (l : List Char) (h : l ≠ []) :
    parseNatDigits l = parseNatDigitsCore l 0 := by
  cases l with
  | nil => exact absurd rfl h
  | cons c cs => rfl

theorem parseNatDigits_zeroPad (w n : Nat) :
    parseNatDigits (zeroPad w (natToChars n)) = some n := by
  unfold zeroPad
  rw [parseNatDigits_of_ne_nil _ (by simp [natToChars_ne_nil n]),
    parseNatDigitsCore_append, parseNatDigitsCore_replicate_zero]
  simp only [parseNatDigitsCore_natToChars]
  simp

theorem zeroPad_mem (w : Nat) (l : List Char) (c : Char) (h : c ∈ zeroPad w l) :
    c = '0' ∨ c ∈ l := by
  unfold zeroPad at h
  rcases List.mem_append.mp h with h | h
  · exact Or.inl (List.eq_of_mem_replicate h)
  · exact Or.inr h

theorem dash_not_mem_zeroPad_natToChars (w n : Nat) : '-' ∉ zeroPad w (natToChars n) := by
  intro h
  rcases zeroPad_mem w _ _ h with h | h
  · exact absurd h (by decide)
  · obtain ⟨d, hd10, hcd⟩ := natToChars_mem n '-' h
    exact (digitChar_facts hd10).2.2.2.1 hcd.symm

/-- Formatting a valid date with `%Y-%m-%d` and parsing it back is the
identity. -/
theorem parseDate_formatDate (d : NaiveDate) (h : d.valid) :
    parseDate (formatDate d) = .ok d := by
  obtain ⟨hm1, hm2, hd1, hd2, hy⟩ := h
  unfold parseDate formatDate formatDateChars
  have hdata : (String.mk (zeroPad 4 (natToChars d.year) ++ '-' ::
      (zeroPad 2 (natToChars d.month) ++ '-' :: zeroPad 2 (natToChars d.day)))).data
      = zeroPad 4 (natToChars d.year) ++ '-' ::
        (zeroPad 2 (natToChars d.month) ++ '-' :: zeroPad 2 (natToChars d.day)) := rfl
  rw [hdata, splitChar_append _ _ _ (dash_not_mem_zeroPad_natToChars 4 d.year),
    splitChar_append _ _ _ (dash_not_mem_zeroPad_natToChars 2 d.month),
    splitChar_of_not_mem _ _ (dash_not_mem_zeroPad_natToChars 2 d.day)]
  simp only [parseNatDigits_zeroPad]
  rw [if_pos ⟨hm1, hm2, hd1, hd2, hy⟩]

/-! ## Lemmas about object key lookup over the serialized bags -/

theorem lookupKey_nil (k : String) : lookupKey [] k = none := rfl

theorem lookupKey_optField_ne {α : Type} (k k' : String) (o : Option α) (f : α → Json)
    (rest : List (String × Json)) (h : (k == k') = false) :
    lookupKey (optField k o f ++ rest) k' = lookupKey rest k' := by
  cases o with
  | none => simp [optField]
  | some a => simp [optField, lookupKey, List.find?_cons, h]

theorem lookupKey_optField_eq {α : Type} (k : String) (o : Option α) (f : α → Json)
    (rest : List (String × Json)) (hrest : lookupKey rest k = none) :
    lookupKey (optField k o f ++ rest) k = o.map f := by
  cases o with
  | none => simpa [optField] using hrest
  | some a => simp [optField, lookupKey, List.find?_cons]

theorem lookupKey_ifblock_ne (b : Bool) (k k' : String) (v : Json)
    (rest : List (String × Json)) (h : (k == k') = false) :
    lookupKey ((if b = true then [] else [(k, v)]) ++ rest) k' = lookupKey rest k' := by
  cases b with
  | true => simp
  | false => simp [lookupKey, List.find?_cons, h]

theorem lookupKey_ifblock_eq (b : Bool) (k : String) (v : Json)
    (rest : List (String × Json)) (hrest : lookupKey rest k = none) :
    lookupKey ((if b = true then [] else [(k, v)]) ++ rest) k
      = (if b = true then none else some v) := by
  cases b with
  | true => simpa using hrest
  | false => simp [lookupKey, List.find?_cons]

theorem mem_optField {α : Type} {kv : String × Json} {k : String} {o : Option α}
    {f : α → Json} (h : kv ∈ optField k o f) : ∃ a, o = some a ∧ kv = (k, f a) := by
  cases o with
  | none => simp [optField] at h
  | some a =>
    simp only [optField, List.mem_singleton] at h
    exact ⟨a, rfl, h⟩

/-- The fallible serializer agrees with the total one: the `unwrap` inside
`updated_since_format::serialize` is only reached behind the `Some` gate. -/
theorem toPairsE_eq_toPairs (p : GetSetsParameters) : p.toPairsE = .ok p.toPairs := by
  unfold GetSetsParameters.toPairsE GetSetsParameters.toPairs
  cases h : p.updated_since with
  | none => simp [h, updated_since_format.serialize, optField]
  | some d => simp [h, updated_since_format.serialize, Except.map, optField]

/-! ## Per-field lookup characterization of the serialized bag -/

theorem lookup_toPairs_set_id (p : GetSetsParameters) :
    lookupKey p.toPairs "setId" = Option.map (fun (n : Nat) => Json.num (n : Int)) p.set_id := by
  unfold GetSetsParameters.toPairs
  simp only [List.append_assoc]
  rw [lookupKey_optField_eq]
  case hrest =>
    rw [lookupKey_optField_ne _ _ _ _ _ (by decide),
        lookupKey_optField_ne _ _ _ _ _ (by decide),
        lookupKey_optField_ne _ _ _ _ _ (by decide),
        lookupKey_optField_ne _ _ _ _ _ (by decide),
        lookupKey_ifblock_ne _ _ _ _ _ (by decide),
        lookupKey_optField_ne _ _ _ _ _ (by decide),
        lookupKey_optField_ne _ _ _ _ _ (by decide),
        lookupKey_optField_ne _ _ _ _ _ (by decide),
        lookupKey_optField_ne _ _ _ _ _ (by decide),
        lookupKey_optField_ne _ _ _ _ _ (by decide),
        lookupKey_optField_ne _ _ _ _ _ (by decide),
        lookupKey_optField_ne _ _ _ _ _ (by decide)]
    rw [← List.append_nil (optField "extendedData" p.extended_data util.Flag.serializeJson)]
    rw [lookupKey_optField_ne _ _ _ _ _ (by decide)]
    rfl
  try rfl

theorem lookup_toPairs_query (p : GetSetsParameters) :
    lookupKey p.toPairs "query" = Option.map Json.str p.query := by
  unfold GetSetsParameters.toPairs
  simp only [List.append_assoc]
  rw [lookupKey_optField_ne _ _ _ _ _ (by decide)]
  rw [lookupKey_optField_eq]
  case hrest =>
    rw [lookupKey_optField_ne _ _ _ _ _ (by decide),
        lookupKey_optField_ne _ _ _ _ _ (by decide),
        lookupKey_optField_ne _ _ _ _ _ (by decide),
        lookupKey_ifblock_ne _ _ _ _ _ (by decide),
        lookupKey_optField_ne _ _ _ _ _ (by decide),
        lookupKey_optField_ne _ _ _ _ _ (by decide),
        lookupKey_optField_ne _ _ _ _ _ (by decide),
        lookupKey_optField_ne _ _ _ _ _ (by decide),
        lookupKey_optField_ne _ _ _ _ _ (by decide),
        lookupKey_optField_ne _ _ _ _ _ (by decide),
        lookupKey_optField_ne _ _ _ _ _ (by decide)]
    rw [← List.append_nil (optField "extendedData" p.extended_data util.Flag.serializeJson)]
    rw [lookupKey_optField_ne _ _ _ _ _ (by decide)]
    rfl
  try rfl

theorem lookup_toPairs_theme (p : GetSetsParameters) :
    lookupKey p.toPairs "theme" = Option.map Json.str p.theme := by
  unfold GetSetsParameters.toPairs
  simp only [List.append_assoc]
  rw [lookupKey_optField_ne _ _ _ _ _ (by decide),
      lookupKey_optField_ne _ _ _ _ _ (by decide)]
  rw [lookupKey_optField_eq]
  case hrest =>
    rw [lookupKey_optField_ne _ _ _ _ _ (by decide),
        lookupKey_optField_ne _ _ _ _ _ (by decide),
        lookupKey_ifblock_ne _ _ _ _ _ (by decide),
        lookupKey_optField_ne _ _ _ _ _ (by decide),
        lookupKey_optField_ne _ _ _ _ _ (by decide),
        lookupKey_optField_ne _ _ _ _ _ (by decide),
        lookupKey_optField_ne _ _ _ _ _ (by decide),
        lookupKey_optField_ne _ _ _ _ _ (by decide),
        lookupKey_optField_ne _ _ _ _ _ (by decide),
        lookupKey_optField_ne _ _ _ _ _ (by decide)]
    rw [← List.append_nil (optField "extendedData" p.extended_data util.Flag.serializeJson)]
    rw [lookupKey_optField_ne _ _ _ _ _ (by decide)]
    rfl
  try rfl

theorem lookup_toPairs_subtheme (p : GetSetsParameters) :
    lookupKey p.toPairs "subtheme" = Option.map Json.str p.subtheme := by
  unfold GetSetsParameters.toPairs
  simp only [List.append_assoc]
  rw [lookupKey_optField_ne _ _ _ _ _ (by decide),
      lookupKey_optField_ne _ _ _ _ _ (by decide),
      lookupKey_optField_ne _ _ _ _ _ (by decide)]
  rw [lookupKey_optField_eq]
  case hrest =>
    rw [lookupKey_optField_ne _ _ _ _ _ (by decide),
        lookupKey_ifblock_ne _ _ _ _ _ (by decide),
        lookupKey_optField_ne _ _ _ _ _ (by decide),
        lookupKey_optField_ne _ _ _ _ _ (by decide),
        lookupKey_optField_ne _ _ _ _ _ (by decide),
        lookupKey_optField_ne _ _ _ _ _ (by decide),
        lookupKey_optField_ne _ _ _ _ _ (by decide),
        lookupKey_optField_ne _ _ _ _ _ (by decide),
        lookupKey_optField_ne _ _ _ _ _ (by decide)]
    rw [← List.append_nil (optField "extendedData" p.extended_data util.Flag.serializeJson)]
    rw [lookupKey_optField_ne _ _ _ _ _ (by decide)]
    rfl
  try rfl

theorem lookup_toPairs_full_set_number (p : GetSetsParameters) :
    lookupKey p.toPairs "setNumber" = Option.map Json.str p.full_set_number := by
  unfold GetSetsParameters.toPairs
  simp only [List.append_assoc]
  rw [lookupKey_optField_ne _ _ _ _ _ (by decide),
      lookupKey_optField_ne _ _ _ _ _ (by decide),
      lookupKey_optField_ne _ _ _ _ _ (by decide),
      lookupKey_optField_ne _ _ _ _ _ (by decide)]
  rw [lookupKey_optField_eq]
  case hrest =>
    rw [lookupKey_ifblock_ne _ _ _ _ _ (by decide),
        lookupKey_optField_ne _ _ _ _ _ (by decide),
        lookupKey_optField_ne _ _ _ _ _ (by decide),
        lookupKey_optField_ne _ _ _ _ _ (by decide),
        lookupKey_optField_ne _ _ _ _ _ (by decide),
        lookupKey_optField_ne _ _ _ _ _ (by decide),
        lookupKey_optField_ne _ _ _ _ _ (by decide),
        lookupKey_optField_ne _ _ _ _ _ (by decide)]
    rw [← List.append_nil (optField "extendedData" p.extended_data util.Flag.serializeJson)]
    rw [lookupKey_optField_ne _ _ _ _ _ (by decide)]
    rfl
  try rfl

theorem lookup_toPairs_year (p : GetSetsParameters) :
    lookupKey p.toPairs "year" = (if p.year.isEmpty = true then none else some (Json.str (int_vec_as_commastr.serialize p.year))) := by
  unfold GetSetsParameters.toPairs
  simp only [List.append_assoc]
  rw [lookupKey_optField_ne _ _ _ _ _ (by decide),
      lookupKey_optField_ne _ _ _ _ _ (by decide),
      lookupKey_optField_ne _ _ _ _ _ (by decide),
      lookupKey_optField_ne _ _ _ _ _ (by decide),
      lookupKey_optField_ne _ _ _ _ _ (by decide)]
  rw [lookupKey_ifblock_eq]
  case hrest =>
    rw [lookupKey_optField_ne _ _ _ _ _ (by decide),
        lookupKey_optField_ne _ _ _ _ _ (by decide),
        lookupKey_optField_ne _ _ _ _ _ (by decide),
        lookupKey_optField_ne _ _ _ _ _ (by decide),
        lookupKey_optField_ne _ _ _ _ _ (by decide),
        lookupKey_optField_ne _ _ _ _ _ (by decide),
        lookupKey_optField_ne _ _ _ _ _ (by decide)]
    rw [← List.append_nil (optField "extendedData" p.extended_data util.Flag.serializeJson)]
    rw [lookupKey_optField_ne _ _ _ _ _ (by decide)]
    rfl
  try rfl

theorem lookup_toPairs_tag (p : GetSetsParameters) :
    lookupKey p.toPairs "tag" = Option.map Json.str p.tag := by
  unfold GetSetsParameters.toPairs
  simp only [List.append_assoc]
  rw [lookupKey_optField_ne _ _ _ _ _ (by decide),
      lookupKey_optField_ne _ _ _ _ _ (by decide),
      lookupKey_optField_ne _ _ _ _ _ (by decide),
      lookupKey_optField_ne _ _ _ _ _ (by decide),
      lookupKey_optField_ne _ _ _ _ _ (by decide),
      lookupKey_ifblock_ne _ _ _ _ _ (by decide)]
  rw [lookupKey_optField_eq]
  case hrest =>
    rw [lookupKey_optField_ne _ _ _ _ _ (by decide),
        lookupKey_optField_ne _ _ _ _ _ (by decide),
        lookupKey_optField_ne _ _ _ _ _ (by decide),
        lookupKey_optField_ne _ _ _ _ _ (by decide),
        lookupKey_optField_ne _ _ _ _ _ (by decide),
        lookupKey_optField_ne _ _ _ _ _ (by decide)]
    rw [← List.append_nil (optField "extendedData" p.extended_data util.Flag.serializeJson)]
    rw [lookupKey_optField_ne _ _ _ _ _ (by decide)]
    rfl
  try rfl

theorem lookup_toPairs_owned (p : GetSetsParameters) :
    lookupKey p.toPairs "owned" = Option.map util.Flag.serializeJson p.owned := by
  unfold GetSetsParameters.toPairs
  simp only [List.append_assoc]
  rw [lookupKey_optField_ne _ _ _ _ _ (by decide),
      lookupKey_optField_ne _ _ _ _ _ (by decide),
      lookupKey_optField_ne _ _ _ _ _ (by decide),
      lookupKey_optField_ne _ _ _ _ _ (by decide),
      lookupKey_optField_ne _ _ _ _ _ (by decide),
      lookupKey_ifblock_ne _ _ _ _ _ (by decide),
      lookupKey_optField_ne _ _ _ _ _ (by decide)]
  rw [lookupKey_optField_eq]
  case hrest =>
    rw [lookupKey_optField_ne _ _ _ _ _ (by decide),
        lookupKey_optField_ne _ _ _ _ _ (by decide),
        lookupKey_optField_ne _ _ _ _ _ (by decide),
        lookupKey_optField_ne _ _ _ _ _ (by decide),
        lookupKey_optField_ne _ _ _ _ _ (by decide)]
    rw [← List.append_nil (optField "extendedData" p.extended_data util.Flag.serializeJson)]
    rw [lookupKey_optField_ne _ _ _ _ _ (by decide)]
    rfl
  try rfl

theorem lookup_toPairs_wanted (p : GetSetsParameters) :
    lookupKey p.toPairs "wanted" = Option.map util.Flag.serializeJson p.wanted := by
  unfold GetSetsParameters.toPairs
  simp only [List.append_assoc]
  rw [lookupKey_optField_ne _ _ _ _ _ (by decide),
      lookupKey_optField_ne _ _ _ _ _ (by decide),
      lookupKey_optField_ne _ _ _ _ _ (by decide),
      lookupKey_optField_ne _ _ _ _ _ (by decide),
      lookupKey_optField_ne _ _ _ _ _ (by decide),
      lookupKey_ifblock_ne _ _ _ _ _ (by decide),
      lookupKey_optField_ne _ _ _ _ _ (by decide),
      lookupKey_optField_ne _ _ _ _ _ (by decide)]
  rw [lookupKey_optField_eq]
  case hrest =>
    rw [lookupKey_optField_ne _ _ _ _ _ (by decide),
        lookupKey_optField_ne _ _ _ _ _ (by decide),
        lookupKey_optField_ne _ _ _ _ _ (by decide),
        lookupKey_optField_ne _ _ _ _ _ (by decide)]
    rw [← List.append_nil (optField "extendedData" p.extended_data util.Flag.serializeJson)]
    rw [lookupKey_optField_ne _ _ _ _ _ (by decide)]
    rfl
  try rfl

theorem lookup_toPairs_updated_since (p : GetSetsParameters) :
    lookupKey p.toPairs "updatedSince" = Option.map (fun d => Json.str (formatDate d)) p.updated_since := by
  unfold GetSetsParameters.toPairs
  simp only [List.append_assoc]
  rw [lookupKey_optField_ne _ _ _ _ _ (by decide),
      lookupKey_optField_ne _ _ _ _ _ (by decide),
      lookupKey_optField_ne _ _ _ _ _ (by decide),
      lookupKey_optField_ne _ _ _ _ _ (by decide),
      lookupKey_optField_ne _ _ _ _ _ (by decide),
      lookupKey_ifblock_ne _ _ _ _ _ (by decide),
      lookupKey_optField_ne _ _ _ _ _ (by decide),
      lookupKey_optField_ne _ _ _ _ _ (by decide),
      lookupKey_optField_ne _ _ _ _ _ (by decide)]
  rw [lookupKey_optField_eq]
  case hrest =>
    rw [lookupKey_optField_ne _ _ _ _ _ (by decide),
        lookupKey_optField_ne _ _ _ _ _ (by decide),
        lookupKey_optField_ne _ _ _ _ _ (by decide)]
    rw [← List.append_nil (optField "extendedData" p.extended_data util.Flag.serializeJson)]
    rw [lookupKey_optField_ne _ _ _ _ _ (by decide)]
    rfl
  try rfl

theorem lookup_toPairs_order_by (p : GetSetsParameters) :
    lookupKey p.toPairs "orderBy" = Option.map (fun o => Json.str o.toVariantString) p.order_by := by
  unfold GetSetsParameters.toPairs
  simp only [List.append_assoc]
  rw [lookupKey_optField_ne _ _ _ _ _ (by decide),
      lookupKey_optField_ne _ _ _ _ _ (by decide),
      lookupKey_optField_ne _ _ _ _ _ (by decide),
      lookupKey_optField_ne _ _ _ _ _ (by decide),
      lookupKey_optField_ne _ _ _ _ _ (by decide),
      lookupKey_ifblock_ne _ _ _ _ _ (by decide),
      lookupKey_optField_ne _ _ _ _ _ (by decide),
      lookupKey_optField_ne _ _ _ _ _ (by decide),
      lookupKey_optField_ne _ _ _ _ _ (by decide),
      lookupKey_optField_ne _ _ _ _ _ (by decide)]
  rw [lookupKey_optField_eq]
  case hrest =>
    rw [lookupKey_optField_ne _ _ _ _ _ (by decide),
        lookupKey_optField_ne _ _ _ _ _ (by decide)]
    rw [← List.append_nil (optField "extendedData" p.extended_data util.Flag.serializeJson)]
    rw [lookupKey_optField_ne _ _ _ _ _ (by decide)]
    rfl
  try rfl

theorem lookup_toPairs_page_size (p : GetSetsParameters) :
    lookupKey p.toPairs "pageSize" = Option.map (fun (n : Nat) => Json.num (n : Int)) p.page_size := by
  unfold GetSetsParameters.toPairs
  simp only [List.append_assoc]
  rw [lookupKey_optField_ne _ _ _ _ _ (by decide),
      lookupKey_optField_ne _ _ _ _ _ (by decide),
      lookupKey_optField_ne _ _ _ _ _ (by decide),
      lookupKey_optField_ne _ _ _ _ _ (by decide),
      lookupKey_optField_ne _ _ _ _ _ (by decide),
      lookupKey_ifblock_ne _ _ _ _ _ (by decide),
      lookupKey_optField_ne _ _ _ _ _ (by decide),
      lookupKey_optField_ne _ _ _ _ _ (by decide),
      lookupKey_optField_ne _ _ _ _ _ (by decide),
      lookupKey_optField_ne _ _ _ _ _ (by decide),
      lookupKey_optField_ne _ _ _ _ _ (by decide)]
  rw [lookupKey_optField_eq]
  case hrest =>
    rw [lookupKey_optField_ne _ _ _ _ _ (by decide)]
    rw [← List.append_nil (optField "extendedData" p.extended_data util.Flag.serializeJson)]
    rw [lookupKey_optField_ne _ _ _ _ _ (by decide)]
    rfl
  try rfl

theorem lookup_toPairs_page_number (p : GetSetsParameters) :
    lookupKey p.toPairs "pageNumber" = Option.map (fun (n : Nat) => Json.num (n : Int)) p.page_number := by
  unfold GetSetsParameters.toPairs
  simp only [List.append_assoc]
  rw [lookupKey_optField_ne _ _ _ _ _ (by decide),
      lookupKey_optField_ne _ _ _ _ _ (by decide),
      lookupKey_optField_ne _ _ _ _ _ (by decide),
      lookupKey_optField_ne _ _ _ _ _ (by decide),
      lookupKey_optField_ne _ _ _ _ _ (by decide),
      lookupKey_ifblock_ne _ _ _ _ _ (by decide),
      lookupKey_optField_ne _ _ _ _ _ (by decide),
      lookupKey_optField_ne _ _ _ _ _ (by decide),
      lookupKey_optField_ne _ _ _ _ _ (by decide),
      lookupKey_optField_ne _ _ _ _ _ (by decide),
      lookupKey_optField_ne _ _ _ _ _ (by decide),
      lookupKey_optField_ne _ _ _ _ _ (by decide)]
  rw [lookupKey_optField_eq]
  case hrest =>
    rw [← List.append_nil (optField "extendedData" p.extended_data util.Flag.serializeJson)]
    rw [lookupKey_optField_ne _ _ _ _ _ (by decide)]
    rfl
  try rfl

theorem lookup_toPairs_extended_data (p : GetSetsParameters) :
    lookupKey p.toPairs "extendedData" = Option.map util.Flag.serializeJson p.extended_data := by
  unfold GetSetsParameters.toPairs
  simp only [List.append_assoc]
  rw [lookupKey_optField_ne _ _ _ _ _ (by decide),
      lookupKey_optField_ne _ _ _ _ _ (by decide),
      lookupKey_optField_ne _ _ _ _ _ (by decide),
      lookupKey_optField_ne _ _ _ _ _ (by decide),
      lookupKey_optField_ne _ _ _ _ _ (by decide),
      lookupKey_ifblock_ne _ _ _ _ _ (by decide),
      lookupKey_optField_ne _ _ _ _ _ (by decide),
      lookupKey_optField_ne _ _ _ _ _ (by decide),
      lookupKey_optField_ne _ _ _ _ _ (by decide),
      lookupKey_optField_ne _ _ _ _ _ (by decide),
      lookupKey_optField_ne _ _ _ _ _ (by decide),
      lookupKey_optField_ne _ _ _ _ _ (by decide),
      lookupKey_optField_ne _ _ _ _ _ (by decide)]
  rw [← List.append_nil (optField "extendedData" p.extended_data util.Flag.serializeJson)]
  rw [lookupKey_optField_eq]
  case hrest => rfl
  try rfl

/-! ## Decoder/encoder round trips per field -/

theorem OrderBy.ofVariantString_toVariantString (o : OrderBy) :
    OrderBy.ofVariantString o.toVariantString = .ok o := by
  cases o <;> rfl

theorem decodeOptNatField_roundtrip (fields : List (String × Json)) (k : String) (o : Option Nat)
    (h : lookupKey fields k = Option.map (fun (n : Nat) => Json.num (n : Int)) o) :
    decodeOptNatField fields k = .ok o := by
  cases o with
  | none => simp [decodeOptNatField, h]
  | some n =>
    simp only [Option.map_some'] at h
    simp [decodeOptNatField, h, Int.natCast_nonneg n]

theorem decodeOptStrField_roundtrip (fields : List (String × Json)) (k : String) (o : Option String)
    (h : lookupKey fields k = Option.map Json.str o) :
    decodeOptStrField fields k = .ok o := by
  cases o with
  | none => simp [decodeOptStrField, h]
  | some s => simp [decodeOptStrField, h]

theorem decodeOptFlagField_roundtrip (fields : List (String × Json)) (k : String)
    (o : Option util.Flag) (h : lookupKey fields k = Option.map util.Flag.serializeJson o) :
    decodeOptFlagField fields k = .ok o := by
  cases o with
  | none => simp [decodeOptFlagField, h]
  | some f => simp [decodeOptFlagField, h, util.Flag.serializeJson, util.Flag.deserializeJson]

theorem decodeOptOrderByField_roundtrip (fields : List (String × Json)) (k : String)
    (o : Option OrderBy) (h : lookupKey fields k = Option.map (fun v => Json.str v.toVariantString) o) :
    decodeOptOrderByField fields k = .ok o := by
  cases o with
  | none => simp [decodeOptOrderByField, h]
  | some v => simp [decodeOptOrderByField, h, OrderBy.ofVariantString_toVariantString]

theorem decodeUpdatedSinceField_roundtrip (fields : List (String × Json)) (o : Option NaiveDate)
    (hvalid : ∀ d, o = some d → d.valid)
    (h : lookupKey fields "updatedSince" = Option.map (fun d => Json.str (formatDate d)) o) :
    decodeUpdatedSinceField fields = .ok o := by
  cases o with
  | none => simp [decodeUpdatedSinceField, h]
  | some d =>
    simp only [Option.map_some'] at h
    simp [decodeUpdatedSinceField, h, updated_since_format.deserialize,
      parseDate_formatDate d (hvalid d rfl)]

theorem bind_ok_except {ε α β : Type} (a : α) (f : α → Except ε β) :
    (Except.ok a : Except ε α) >>= f = f a := rfl

/-- Serializing a bag with a non-empty year list (and, when set, a valid
date) and deserializing it back reproduces the bag. -/
theorem fromPairs_toPairs (p : GetSetsParameters) (hyear : p.year ≠ [])
    (hb : ∀ y ∈ p.year, i32Min ≤ y ∧ y ≤ i32Max)
    (hdate : ∀ d, p.updated_since = some d → d.valid) :
    GetSetsParameters.fromPairs p.toPairs = .ok p := by
  have hyl : lookupKey p.toPairs "year" = some (Json.str (int_vec_as_commastr.serialize p.year)) := by
    rw [lookup_toPairs_year]
    simp [hyear]
  unfold GetSetsParameters.fromPairs
  simp only [decodeOptNatField_roundtrip _ _ _ (lookup_toPairs_set_id p),
    decodeOptStrField_roundtrip _ _ _ (lookup_toPairs_query p),
    decodeOptStrField_roundtrip _ _ _ (lookup_toPairs_theme p),
    decodeOptStrField_roundtrip _ _ _ (lookup_toPairs_subtheme p),
    decodeOptStrField_roundtrip _ _ _ (lookup_toPairs_full_set_number p),
    hyl,
    decodeOptStrField_roundtrip _ _ _ (lookup_toPairs_tag p),
    decodeOptFlagField_roundtrip _ _ _ (lookup_toPairs_owned p),
    decodeOptFlagField_roundtrip _ _ _ (lookup_toPairs_wanted p),
    decodeUpdatedSinceField_roundtrip _ _ hdate (lookup_toPairs_updated_since p),
    decodeOptOrderByField_roundtrip _ _ _ (lookup_toPairs_order_by p),
    decodeOptNatField_roundtrip _ _ _ (lookup_toPairs_page_size p),
    decodeOptNatField_roundtrip _ _ _ (lookup_toPairs_page_number p),
    decodeOptFlagField_roundtrip _ _ _ (lookup_toPairs_extended_data p),
    int_vec_roundtrip p.year hyear hb,
    bind_ok_except]
  rfl

/-! ## Membership facts about the serialized bags -/

theorem not_mem_optField_ne {α : Type} (k k' : String) (o : Option α) (f : α → Json)
    (v : Json) (h : k ≠ k') : (k', v) ∉ optField k o f := by
  cases o with
  | none => simp [optField]
  | some a =>
    simp only [optField, List.mem_singleton]
    intro heq
    exact h (congrArg Prod.fst heq).symm

/-- Every value emitted by the bag serializer comes from a set field and is a
number or a string — in particular never JSON `null`. -/
theorem toPairs_values_not_null (p : GetSetsParameters) :
    ∀ kv ∈ p.toPairs, kv.2 ≠ Json.null := by
  intro kv hkv
  unfold GetSetsParameters.toPairs at hkv
  simp only [List.append_assoc, List.mem_append] at hkv
  rcases hkv with h | h | h | h | h | h | h | h | h | h | h | h | h | h
  · obtain ⟨a, _, rfl⟩ := mem_optField h; simp
  · obtain ⟨a, _, rfl⟩ := mem_optField h; simp
  · obtain ⟨a, _, rfl⟩ := mem_optField h; simp
  · obtain ⟨a, _, rfl⟩ := mem_optField h; simp
  · obtain ⟨a, _, rfl⟩ := mem_optField h; simp
  · rcases hy : p.year.isEmpty with htrue | hfalse
    · rw [hy] at h; simp at h
      rw [h]; simp
    · rw [hy] at h; simp at h
  · obtain ⟨a, _, rfl⟩ := mem_optField h; simp
  · obtain ⟨a, _, rfl⟩ := mem_optField h; simp [util.Flag.serializeJson]
  · obtain ⟨a, _, rfl⟩ := mem_optField h; simp [util.Flag.serializeJson]
  · obtain ⟨a, _, rfl⟩ := mem_optField h; simp
  · obtain ⟨a, _, rfl⟩ := mem_optField h; simp
  · obtain ⟨a, _, rfl⟩ := mem_optField h; simp
  · obtain ⟨a, _, rfl⟩ := mem_optField h; simp
  · obtain ⟨a, _, rfl⟩ := mem_optField h; simp [util.Flag.serializeJson]

/-! ## A relational specification of the comma-list decode -/

/-- The token loop succeeds with `l` exactly when each comma-separated token,
after trimming, parses to the corresponding element of `l`. -/
theorem parseTokens_ok_iff (ts : List String) : ∀ l : List Int,
    int_vec_as_commastr.parseTokens ts = .ok l ↔
      List.Forall₂ (fun t y => i32FromStrRadix10 (rustTrim t) = .ok y) ts l := by
  induction ts with
  | nil =>
    intro l
    constructor
    · intro h
      cases l with
      | nil => exact List.Forall₂.nil
      | cons a as => simp [int_vec_as_commastr.parseTokens] at h
    · intro h
      cases h
      rfl
  | cons t ts ih =>
    intro l
    constructor
    · intro h
      simp only [int_vec_as_commastr.parseTokens] at h
      cases ht : i32FromStrRadix10 (rustTrim t) with
      | error e => rw [ht] at h; cases h
      | ok i =>
        rw [ht] at h
        cases hts : int_vec_as_commastr.parseTokens ts with
        | error e => rw [hts] at h; cases h
        | ok is =>
          rw [hts] at h
          cases h
          exact List.Forall₂.cons ht ((ih is).mp hts)
    · intro h
      cases h with
      | cons hR hF =>
        simp only [int_vec_as_commastr.parseTokens, hR, (ih _).mpr hF]

/-! ## Lookup facts about the collection-mutation bags -/

theorem lookup_setCollToPairs_own (p : SetCollectionParameters) :
    lookupKey p.toPairs "own" = Option.map (fun (n : Nat) => Json.num (n : Int)) p.own := by
  unfold SetCollectionParameters.toPairs
  simp only [List.append_assoc]
  rw [lookupKey_optField_eq]
  case hrest =>
    rw [lookupKey_optField_ne _ _ _ _ _ (by decide),
        lookupKey_optField_ne _ _ _ _ _ (by decide),
        lookupKey_optField_ne _ _ _ _ _ (by decide)]
    rw [← List.append_nil (optField "rating" p.rating (fun i => Json.num i))]
    rw [lookupKey_optField_ne _ _ _ _ _ (by decide)]
    rfl
  try rfl

theorem lookup_setMinifigToPairs_own (p : SetMinifigCollectionParameters) :
    lookupKey p.toPairs "own" = Option.map (fun (n : Nat) => Json.num (n : Int)) p.own := by
  unfold SetMinifigCollectionParameters.toPairs
  simp only [List.append_assoc]
  rw [lookupKey_optField_eq]
  case hrest =>
    rw [lookupKey_optField_ne _ _ _ _ _ (by decide),
        lookupKey_optField_ne _ _ _ _ _ (by decide)]
    rw [← List.append_nil (optField "notes" p.notes Json.str)]
    rw [lookupKey_optField_ne _ _ _ _ _ (by decide)]
    rfl
  try rfl

theorem own_one_not_mem_setColl (p : SetCollectionParameters)
    (h : ∀ a, p.own = some a → a ≠ 1) : ("own", Json.num 1) ∉ p.toPairs := by
  intro hmem
  unfold SetCollectionParameters.toPairs at hmem
  simp only [List.append_assoc, List.mem_append] at hmem
  rcases hmem with hm | hm | hm | hm | hm
  · obtain ⟨a, ha, heq⟩ := mem_optField hm
    have hval : Json.num 1 = Json.num (a : Int) := congrArg Prod.snd heq
    have : (1 : Int) = (a : Int) := by injection hval
    exact h a ha (by omega)
  · exact not_mem_optField_ne _ _ _ _ _ (by decide) hm
  · exact not_mem_optField_ne _ _ _ _ _ (by decide) hm
  · exact not_mem_optField_ne _ _ _ _ _ (by decide) hm
  · exact not_mem_optField_ne _ _ _ _ _ (by decide) hm

theorem own_one_not_mem_setMinifig (p : SetMinifigCollectionParameters)
    (h : ∀ a, p.own = some a → a ≠ 1) : ("own", Json.num 1) ∉ p.toPairs := by
  intro hmem
  unfold SetMinifigCollectionParameters.toPairs at hmem
  simp only [List.append_assoc, List.mem_append] at hmem
  rcases hmem with hm | hm | hm | hm
  · obtain ⟨a, ha, heq⟩ := mem_optField hm
    have hval : Json.num 1 = Json.num (a : Int) := congrArg Prod.snd heq
    have : (1 : Int) = (a : Int) := by injection hval
    exact h a ha (by omega)
  · exact not_mem_optField_ne _ _ _ _ _ (by decide) hm
  · exact not_mem_optField_ne _ _ _ _ _ (by decide) hm
  · exact not_mem_optField_ne _ _ _ _ _ (by decide) hm

/-! ## The `getSets` emission -/

/-- `GetSets::encode_query` always succeeds and emits exactly the three pairs
`apiKey`, `params`, `userHash` in that order; an absent user hash is emitted
as the empty string. -/
theorem getSets_encode_query_pairs (g : GetSets) :
    g.encode_query = .ok [("apiKey", g.api_key),
      ("params", renderJson (.obj g.params.toPairs)),
      ("userHash", g.user_hash.getD "")] := by
  unfold GetSets.encode_query GetSetsParameters.to_json_stringE
  rw [toPairsE_eq_toPairs]

/-! ## The claims -/

/-- C1 (counterexample): decoding `"19a9"` fails, but the error is
`ParseIntError`'s display string `"invalid digit found in string"`, which does
not reference the offending token `"19a9"` — the claim's "error carrying the
offending token" is false on the code. -/
theorem commaList_decode_error_no_token :
    int_vec_as_commastr.deserialize (.str "19a9")
        = .error IntErrorKind.invalidDigit.message ∧
    strContains IntErrorKind.invalidDigit.message "19a9" = false :=
  ⟨rfl, by decide⟩

/-- C1 (amended): the comma-list decode accepts a bare in-range integer as a
one-element list, and accepts a string exactly when every comma-separated
token, trimmed of surrounding whitespace, parses as an `i32` (yielding the
list of parsed integers, e.g. `"1999, 2001,2004"` gives `[1999, 2001, 2004]`);
a non-numeric token fails with the integer-parse error's display string
(which does not contain the offending token). -/
theorem commaList_decode_spec :
    (∀ n : Int, i32Min ≤ n → n ≤ i32Max →
        int_vec_as_commastr.deserialize (.num n) = .ok [n]) ∧
    (∀ (s : String) (l : List Int),
        int_vec_as_commastr.deserialize (.str s) = .ok l ↔
          List.Forall₂ (fun t y => i32FromStrRadix10 (rustTrim t) = .ok y)
            (rustSplit ',' s) l) ∧
    int_vec_as_commastr.deserialize (.num 1999) = .ok [1999] ∧
    int_vec_as_commastr.deserialize (.str "1999, 2001,2004") = .ok [1999, 2001, 2004] ∧
    int_vec_as_commastr.deserialize (.str "19a9")
        = .error IntErrorKind.invalidDigit.message := by
  refine ⟨?_, ?_, rfl, rfl, rfl⟩
  · intro n h1 h2
    simp [int_vec_as_commastr.deserialize, h1, h2]
  · intro s l
    exact parseTokens_ok_iff _ l

/-- C1 (witness): the amended claim applied at the bare integer `1999` and at
the single-token string `"7"`. -/
theorem commaList_decode_spec_witness :
    int_vec_as_commastr.deserialize (.num 1999) = .ok [1999] ∧
    int_vec_as_commastr.deserialize (.str "7") = .ok [7] :=
  ⟨commaList_decode_spec.1 1999 (by decide) (by decide),
   (commaList_decode_spec.2.1 "7" [7]).mpr (List.Forall₂.cons rfl List.Forall₂.nil)⟩

/-- C2 (counterexample): the sort-key enum has 48 variants, not 46 as the
claim counts them. -/
theorem orderBy_count_counterexample :
    Fintype.card OrderBy = 48 ∧ Fintype.card OrderBy ≠ 46 :=
  ⟨by decide, by decide⟩

/-- C2 (amended): for every value of the 48-variant sort-key enum, reversing
twice is the identity, reversing never fixes a value, reversing flips the
ascending/descending side, and reversing is injective — so every ascending
variant has exactly one descending counterpart. -/
theorem orderBy_reversed_involution :
    (∀ s : OrderBy, s.reversed.reversed = s) ∧
    (∀ s : OrderBy, s.reversed ≠ s) ∧
    (∀ s : OrderBy, s.reversed.isDescending = !s.isDescending) ∧
    (∀ s t : OrderBy, s.reversed = t.reversed → s = t) :=
  ⟨by decide, by decide, by decide, by decide⟩

/-- C2 (witness): the involution and injectivity applied at `Pieces`. -/
theorem orderBy_reversed_involution_witness :
    OrderBy.Pieces.reversed.reversed = OrderBy.Pieces ∧
    OrderBy.Pieces = OrderBy.Pieces :=
  ⟨orderBy_reversed_involution.1 OrderBy.Pieces,
   orderBy_reversed_involution.2.2.2 OrderBy.Pieces OrderBy.Pieces rfl⟩

/-- C3: serializing a catalog-query bag emits a key exactly when the
corresponding field is set (each of the fourteen keys is characterized), no
emitted value is ever JSON `null`, and each boolean-flag setter called with
`false` removes its field so the key is absent again. -/
theorem getSetsParameters_omit_unset (p : GetSetsParameters) :
    lookupKey p.toPairs "setId" = Option.map (fun (n : Nat) => Json.num (n : Int)) p.set_id ∧
    lookupKey p.toPairs "query" = Option.map Json.str p.query ∧
    lookupKey p.toPairs "theme" = Option.map Json.str p.theme ∧
    lookupKey p.toPairs "subtheme" = Option.map Json.str p.subtheme ∧
    lookupKey p.toPairs "setNumber" = Option.map Json.str p.full_set_number ∧
    lookupKey p.toPairs "year"
      = (if p.year.isEmpty = true then none
         else some (Json.str (int_vec_as_commastr.serialize p.year))) ∧
    lookupKey p.toPairs "tag" = Option.map Json.str p.tag ∧
    lookupKey p.toPairs "owned" = Option.map util.Flag.serializeJson p.owned ∧
    lookupKey p.toPairs "wanted" = Option.map util.Flag.serializeJson p.wanted ∧
    lookupKey p.toPairs "updatedSince"
      = Option.map (fun d => Json.str (formatDate d)) p.updated_since ∧
    lookupKey p.toPairs "orderBy"
      = Option.map (fun o => Json.str o.toVariantString) p.order_by ∧
    lookupKey p.toPairs "pageSize" = Option.map (fun (n : Nat) => Json.num (n : Int)) p.page_size ∧
    lookupKey p.toPairs "pageNumber" = Option.map (fun (n : Nat) => Json.num (n : Int)) p.page_number ∧
    lookupKey p.toPairs "extendedData" = Option.map util.Flag.serializeJson p.extended_data ∧
    (∀ kv ∈ p.toPairs, kv.2 ≠ Json.null) ∧
    lookupKey ((p.owned_by_user true).owned_by_user false).toPairs "owned" = none ∧
    lookupKey ((p.wanted_by_user true).wanted_by_user false).toPairs "wanted" = none ∧
    lookupKey ((p.with_extended_data true).with_extended_data false).toPairs "extendedData" = none := by
  refine ⟨lookup_toPairs_set_id p, lookup_toPairs_query p, lookup_toPairs_theme p,
    lookup_toPairs_subtheme p, lookup_toPairs_full_set_number p, lookup_toPairs_year p,
    lookup_toPairs_tag p, lookup_toPairs_owned p, lookup_toPairs_wanted p,
    lookup_toPairs_updated_since p, lookup_toPairs_order_by p, lookup_toPairs_page_size p,
    lookup_toPairs_page_number p, lookup_toPairs_extended_data p,
    toPairs_values_not_null p, ?_, ?_, ?_⟩
  · rw [lookup_toPairs_owned]; rfl
  · rw [lookup_toPairs_wanted]; rfl
  · rw [lookup_toPairs_extended_data]; rfl

/-- C3 (witness): on the bag with only `query` set, the `setId` key is absent
and the emitted `query` value is not `null`. -/
theorem getSetsParameters_omit_unset_witness :
    lookupKey (GetSetsParameters.new.with_query "fire").toPairs "setId" = none ∧
    Json.str "fire" ≠ Json.null := by
  constructor
  · rw [(getSetsParameters_omit_unset (GetSetsParameters.new.with_query "fire")).1]
    rfl
  · exact (getSetsParameters_omit_unset
        (GetSetsParameters.new.with_query "fire")).2.2.2.2.2.2.2.2.2.2.2.2.2.2.1
      ("query", Json.str "fire") (List.mem_singleton.mpr rfl)

/-- C4: request construction never fails for policy reasons — the page-size
setter stores every value (0 and values above 500 included; the out-of-range
cases only produce the advisory `page_size_warning`), `GetSets::encode_query`
always returns `Ok`, and a wanted/owned filter without a session token
produces the emission plus a warning, never an error. -/
theorem request_construction_never_fails :
    (∀ (p : GetSetsParameters) (n : Nat), (p.with_page_size n).page_size = some n) ∧
    (∀ g : GetSets, g.encode_query.isOk = true) ∧
    (∀ g : GetSets,
        (g.params.wanted.isSome || g.params.owned.isSome) = true →
        g.user_hash = none →
        g.encode_warnings
          = ["User hash is required when wanted/owned parameters are used in GetSets"]) := by
  refine ⟨fun p n => rfl, ?_, ?_⟩
  · intro g
    rw [getSets_encode_query_pairs g]
    rfl
  · intro g hw hh
    simp [GetSets.encode_warnings, hw, hh]

/-- C4 (witness): the end-to-end scenario — page size 500, sorted by pieces
descending, filtered to wanted-by-user, no session token — yields a
successful emission and the warning. -/
theorem request_construction_never_fails_witness :
    ((GetSetsParameters.new.with_page_size 0).page_size = some 0) ∧
    ((GetSetsParameters.new.with_page_size 501).page_size = some 501) ∧
    ((GetSets.new "key" none (((GetSetsParameters.new.with_page_size 500).with_order_by
        OrderBy.PiecesDESC).wanted_by_user true)).encode_query.isOk = true) ∧
    ((GetSets.new "key" none (((GetSetsParameters.new.with_page_size 500).with_order_by
        OrderBy.PiecesDESC).wanted_by_user true)).encode_warnings
      = ["User hash is required when wanted/owned parameters are used in GetSets"]) :=
  ⟨request_construction_never_fails.1 GetSetsParameters.new 0,
   request_construction_never_fails.1 GetSetsParameters.new 501,
   request_construction_never_fails.2.1 _,
   request_construction_never_fails.2.2 _ rfl rfl⟩

/-- C5: calling `owned(0)` never records the user as owning the item — for
the set-collection bag it clears the `own` flag entirely (while storing
`qtyOwned = 0`, the documented removal form), for the minifig-collection bag
it stores the explicit non-ownership marker `own = 0`, and in neither case
does the serialized form contain an `own = 1` ownership assertion. -/
theorem owned_zero_clears_ownership (p : SetCollectionParameters)
    (q : SetMinifigCollectionParameters) :
    (p.owned 0).own = none ∧
    lookupKey (p.owned 0).toPairs "own" = none ∧
    (p.owned 0).qty_owned = some 0 ∧
    (q.owned 0).own = some 0 ∧
    (q.owned 0).qty_owned = none ∧
    lookupKey (q.owned 0).toPairs "own" = some (Json.num 0) ∧
    ("own", Json.num 1) ∉ (p.owned 0).toPairs ∧
    ("own", Json.num 1) ∉ (q.owned 0).toPairs := by
  refine ⟨rfl, ?_, rfl, rfl, rfl, ?_, ?_, ?_⟩
  · rw [lookup_setCollToPairs_own]
    rfl
  · rw [lookup_setMinifigToPairs_own]
    rfl
  · exact own_one_not_mem_setColl (p.owned 0)
      (fun a ha => by simp [SetCollectionParameters.owned] at ha)
  · exact own_one_not_mem_setMinifig (q.owned 0)
      (fun a ha => by
        simp [SetMinifigCollectionParameters.owned] at ha
        omega)

/-- C5 (witness): the theorem applied to the two fresh parameter bags. -/
theorem owned_zero_clears_ownership_witness :
    lookupKey (SetCollectionParameters.new.owned 0).toPairs "own" = none ∧
    lookupKey (SetMinifigCollectionParameters.new.owned 0).toPairs "own" = some (Json.num 0) :=
  ⟨(owned_zero_clears_ownership SetCollectionParameters.new SetMinifigCollectionParameters.new).2.1,
   (owned_zero_clears_ownership SetCollectionParameters.new
      SetMinifigCollectionParameters.new).2.2.2.2.2.1⟩

/-- C6: envelope decoding is discriminated by the `status` string — a
`"success"` tag decodes the remaining fields as the payload type, an
`"error"` tag decodes the `message` field into the error case; in particular
the two concrete examples of the specification hold. -/
theorem response_envelope_discriminated :
    (∀ (T : Type) (decT : List (String × Json) → Except String T)
        (fields : List (String × Json)),
        lookupKey fields "status" = some (.str "success") →
        decodeResponse decT (.obj fields) =
          (match decT (removeKey fields "status") with
           | .ok t => .ok (Response.Ok t)
           | .error e => .error e)) ∧
    (∀ (T : Type) (decT : List (String × Json) → Except String T)
        (fields : List (String × Json)) (m : String),
        lookupKey fields "status" = some (.str "error") →
        lookupKey (removeKey fields "status") "message" = some (.str m) →
        decodeResponse decT (.obj fields) = .ok (Response.Err ⟨m⟩)) ∧
    decodeResponse decodeCheckKeyResponse (.obj [("status", .str "success")])
      = .ok (Response.Ok {}) ∧
    decodeResponse decodeCheckKeyResponse
        (.obj [("status", .str "error"), ("message", .str "Invalid API key")])
      = .ok (Response.Err ⟨"Invalid API key"⟩) := by
  refine ⟨?_, ?_, rfl, rfl⟩
  · intro T decT fields h
    simp [decodeResponse, h]
  · intro T decT fields m h1 h2
    simp [decodeResponse, h1, h2, response.Error.fromPairs]

/-- C6 (witness): the general cases applied to concrete envelopes (the
success envelope carrying an extra payload field). -/
theorem response_envelope_discriminated_witness :
    decodeResponse decodeCheckKeyResponse
        (.obj [("status", .str "success"), ("extra", .num 5)]) = .ok (Response.Ok {}) ∧
    decodeResponse decodeCheckKeyResponse
        (.obj [("status", .str "error"), ("message", .str "boom")]) = .ok (Response.Err ⟨"boom"⟩) := by
  constructor
  · rw [response_envelope_discriminated.1 CheckKeyResponse decodeCheckKeyResponse
        [("status", Json.str "success"), ("extra", Json.num 5)] rfl]
    rfl
  · exact response_envelope_discriminated.2.1 CheckKeyResponse decodeCheckKeyResponse
      [("status", Json.str "error"), ("message", Json.str "boom")] "boom" rfl rfl

/-- C7 (counterexample): the default bag (empty year list) does not round
trip — its serialization omits the `year` key, and the deserializer, whose
`year` field has no serde default, fails with a missing-field error. -/
theorem getSets_params_roundtrip_counterexample :
    GetSetsParameters.fromPairs GetSetsParameters.new.toPairs
      = .error "missing field `year`" ∧
    GetSetsParameters.fromPairs GetSetsParameters.new.toPairs
      ≠ .ok GetSetsParameters.new := by
  refine ⟨rfl, ?_⟩
  intro h
  rw [show GetSetsParameters.fromPairs GetSetsParameters.new.toPairs
      = .error "missing field `year`" from rfl] at h
  exact Except.noConfusion h

/-- C7 (amended): for every catalog-query bag whose year list is non-empty
(with years in `i32` range and, when set, a calendar-valid updated-since
date), serializing to the JSON `params` object and deserializing back
reproduces the original bag, including flag fields, the comma-joined year
list, and the updated-since date; a bag with an empty year list instead
fails to deserialize with a missing-field error. -/
theorem getSets_params_roundtrip (p : GetSetsParameters) (hyear : p.year ≠ [])
    (hb : ∀ y ∈ p.year, i32Min ≤ y ∧ y ≤ i32Max)
    (hdate : ∀ d, p.updated_since = some d → d.valid) :
    GetSetsParameters.fromPairs p.toPairs = .ok p :=
  fromPairs_toPairs p hyear hb hdate

/-- C7 (witness): the round trip applied to a concrete bag exercising the
set-id, year-list, flag, and updated-since fields. -/
theorem getSets_params_roundtrip_witness :
    GetSetsParameters.fromPairs ((((GetSetsParameters.new.with_set_id 123).years
        [1999, 2001, 2004]).owned_by_user true).with_updated_since ⟨2023, 2, 28⟩).toPairs
      = .ok ((((GetSetsParameters.new.with_set_id 123).years
        [1999, 2001, 2004]).owned_by_user true).with_updated_since ⟨2023, 2, 28⟩) :=
  getSets_params_roundtrip _ (by decide) (by decide)
    (by intro d hd; cases hd; decide)

/-- C8: for every API-key string, encoding the check-key operation yields the
method name `"checkKey"` and exactly the single pair `apiKey = k`. -/
theorem checkKey_encode (k : String) :
    (CheckKey.new k).encode_query = .ok [("apiKey", k)] ∧
    (CheckKey.new k).method_name = "checkKey" :=
  ⟨rfl, rfl⟩

/-- C9: every `getSets` emission is exactly the three pairs `apiKey`,
`params`, `userHash` in that order; a missing session token is emitted as an
empty-string `userHash`, not omitted. -/
theorem getSets_encode_three_pairs (g : GetSets) :
    g.encode_query = .ok [("apiKey", g.api_key),
      ("params", renderJson (.obj g.params.toPairs)),
      ("userHash", g.user_hash.getD "")] :=
  getSets_encode_query_pairs g

/-- C10: the updated-since serializer unwraps its `Option` argument (the
panic on `None` is the modelled error), yet serializing any bag is total:
the field is skipped whenever it is `None`, so the serializer is only ever
invoked on a present date. -/
theorem updated_since_serializer_total :
    updated_since_format.serialize none
      = .error "called Option::unwrap() on a None value" ∧
    (∀ d : NaiveDate, updated_since_format.serialize (some d) = .ok (formatDate d)) ∧
    (∀ p : GetSetsParameters, p.toPairsE = .ok p.toPairs) :=
  ⟨rfl, fun _ => rfl, toPairsE_eq_toPairs⟩
